import Mathlib

/-!
Verification of the FixFlow bounty escrow core: a shallow embedding of
`BountyEscrow.sol` (the Solidity contract appended to
`src/contracts/test/BountyEscrow.test.js`) and of the dual-rail payment
gateway (`PaymentService` in `src/unnamed/part_002` and
`EthereumPaymentService.calculateFee` in
`src/bot/src/services/ethereumPayment.js`).

Modeling conventions:
* Ethereum addresses are naturals; `0` is the zero address.
* The MNEE ERC-20 token is modeled as a balance book (association list
  address → balance); transfers fail on insufficient balance and on a
  zero-address recipient, as in OpenZeppelin's ERC20.
* `uint256` amounts are naturals. Solidity 0.8 checked arithmetic is kept
  explicit wherever an operation on in-range (`< 2^256`) operands can
  overflow: the addition in `escalateBounty`, the fee multiplication and
  subtraction in `releaseBounty`, the `uint8` increment of
  `escalationCount`, and `nextBountyId++`. An overflow reverts with
  `ArithmeticPanic` (Solidity `Panic(0x11)`).
* A reverted call leaves the state unchanged; `execOp` commits the new
  state only on success, mirroring EVM transaction semantics.
-/

namespace BountyEscrow

/-- Ethereum addresses, abstracted to naturals. `0` is the zero address. -/
abbrev Addr := Nat

/-- `2 ^ 256`, the bound of Solidity's `uint256`. -/
def UINT256 : Nat := 2 ^ 256

/-- `2 ^ 8`, the bound of Solidity's `uint8` (`escalationCount`). -/
def UINT8 : Nat := 2 ^ 8

/-- ERC-20 balance book for the MNEE token: an association list from
address to balance (absent address = balance 0). -/
abbrev Balances := List (Addr × Nat)

/-- `balanceOf`: first matching entry, default 0 (ERC-20 `balanceOf`). -/
def balanceOf : Balances → Addr → Nat
  | [], _ => 0
  | (a, v) :: rest, x => if a = x then v else balanceOf rest x

/-- Overwrite the balance of `a` with `v` (first matching entry). -/
def setBalance : Balances → Addr → Nat → Balances
  | [], a, v => [(a, v)]
  | (a', w) :: rest, a, v =>
      if a' = a then (a, v) :: rest else (a', w) :: setBalance rest a v

/-- ERC-20 transfer of `amt` from `src` to `dst`. Fails (reverts) when the
recipient is the zero address or `src`'s balance is insufficient, as in
OpenZeppelin's `ERC20._transfer` called through `SafeERC20`. -/
def transfer (bk : Balances) (src dst : Addr) (amt : Nat) : Option Balances :=
  if dst = 0 then none
  else if balanceOf bk src < amt then none
  else
    let bk1 := setBalance bk src (balanceOf bk src - amt)
    some (setBalance bk1 dst (balanceOf bk1 dst + amt))

/-- `enum BountyStatus { Active, Claimed, Cancelled, Expired }`. -/
inductive BountyStatus where
  | Active
  | Claimed
  | Cancelled
  | Expired
deriving DecidableEq

/-- The `Bounty` struct of `BountyEscrow.sol`. `escalationCount` is a
`uint8` in the contract; its overflow is modeled in `escalateBounty`. -/
structure Bounty where
  id : Nat
  creator : Addr
  initialAmount : Nat
  currentAmount : Nat
  maxAmount : Nat
  repository : String
  issueId : Nat
  issueUrl : String
  status : BountyStatus
  solver : Addr
  solverGithubLogin : String
  pullRequestUrl : String
  createdAt : Nat
  claimedAt : Nat
  expiresAt : Nat
  escalationCount : Nat

/-- The revert reasons reachable from the contract's entry points.
`EnforcedPause`/`ExpectedPause` come from OpenZeppelin `Pausable`,
`MissingRole` from `AccessControl.onlyRole`, `TransferFailed` stands for a
revert bubbled out of the ERC-20 token, and `ArithmeticPanic` for Solidity
0.8 checked-arithmetic overflow (`Panic(0x11)`). -/
inductive Err where
  | InvalidAmount
  | BountyNotFound
  | BountyNotActive
  | BountyAlreadyExists
  | UnauthorizedCaller
  | InvalidSolverAddress
  | MaxAmountExceeded
  | TransferFailed
  | InvalidConfiguration
  | EnforcedPause
  | ExpectedPause
  | MissingRole
  | ArithmeticPanic
deriving DecidableEq

/-- The contract's storage, plus the MNEE balance book (`erc20`) and the
contract's own address (`self`, i.e. `address(this)`). `admins` and
`oracles` are the holders of `ADMIN_ROLE` and `ORACLE_ROLE`. -/
structure EscrowState where
  self : Addr
  mneeToken : Addr
  erc20 : Balances
  nextBountyId : Nat
  minBountyAmount : Nat
  maxBountyAmount : Nat
  platformFeeBps : Nat
  feeRecipient : Addr
  admins : List Addr
  oracles : List Addr
  bounties : List Bounty
  issueToBountyId : List ((String × Nat) × Nat)
  paused : Bool

/-- Lookup in `mapping(uint256 => Bounty) bounties`, keyed by the stored
`id` field (the contract always stores a bounty under its own id). A
missing key corresponds to the zeroed struct, detected in the contract by
`bounty.id == 0`. -/
def findBounty : List Bounty → Nat → Option Bounty
  | [], _ => none
  | b :: rest, id => if b.id = id then some b else findBounty rest id

/-- Storage write `bounties[id] = b'` (replaces the entry with that id). -/
def setBounty : List Bounty → Nat → Bounty → List Bounty
  | [], _, _ => []
  | b :: rest, id, b' =>
      if b.id = id then b' :: setBounty rest id b' else b :: setBounty rest id b'

/-- Lookup in `mapping(bytes32 => uint256) issueToBountyId`; the dedupe
key `keccak256(abi.encodePacked(repository, issueId))` is modeled as the
pair itself (collision-free). Mapping default is 0. -/
def lookupIssue : List ((String × Nat) × Nat) → (String × Nat) → Nat
  | [], _ => 0
  | (k', v) :: rest, k => if k' = k then v else lookupIssue rest k

/-- `platformFee = (currentAmount * platformFeeBps) / 10000` (integer
division, i.e. floor) — the ledger's fee formula in `releaseBounty`. -/
def platformFeeOf (amount bps : Nat) : Nat := amount * bps / 10000

/-- The constructor. Reverts `InvalidConfiguration` when the token, admin
or oracle address is zero; `_feeRecipient` is NOT checked (as in the
source). Defaults: `minBountyAmount = 1e18`, `maxBountyAmount = 1e24`,
`platformFeeBps = 250`, `nextBountyId = 1`. `tok` is the pre-existing
MNEE balance book. -/
def deploy (self _mneeToken _admin _oracle _feeRecipient : Addr)
    (tok : Balances) : Except Err EscrowState :=
  if _mneeToken = 0 ∨ _admin = 0 ∨ _oracle = 0 then .error .InvalidConfiguration
  else .ok
    { self := self
      mneeToken := _mneeToken
      erc20 := tok
      nextBountyId := 1
      minBountyAmount := 10 ^ 18
      maxBountyAmount := 1000000 * 10 ^ 18
      platformFeeBps := 250
      feeRecipient := _feeRecipient
      admins := [_admin]
      oracles := [_oracle]
      bounties := []
      issueToBountyId := []
      paused := false }

/-- `createBounty(repository, issueId, issueUrl, amount, maxAmount,
expiresAt)` with `msg.sender = sender` and `block.timestamp = now`.
Guard order follows the source: `whenNotPaused`, the three
`InvalidAmount` checks, the dedupe check, `nextBountyId++`, storage
writes, then `safeTransferFrom(sender, address(this), amount)`. -/
def createBounty (s : EscrowState) (sender now : Nat) (repository : String)
    (issueId : Nat) (issueUrl : String) (amount maxAmount expiresAt : Nat) :
    Except Err (EscrowState × Nat) :=
  if s.paused then .error .EnforcedPause
  else if amount < s.minBountyAmount ∨ amount > s.maxBountyAmount then .error .InvalidAmount
  else if maxAmount < amount ∨ maxAmount > s.maxBountyAmount then .error .InvalidAmount
  else if expiresAt ≠ 0 ∧ expiresAt ≤ now then .error .InvalidAmount
  else if lookupIssue s.issueToBountyId (repository, issueId) ≠ 0 then .error .BountyAlreadyExists
  else if s.nextBountyId + 1 ≥ UINT256 then .error .ArithmeticPanic
  else
    match transfer s.erc20 sender s.self amount with
    | none => .error .TransferFailed
    | some tok => .ok
        ({ s with
            nextBountyId := s.nextBountyId + 1
            bounties := s.bounties ++
              [{ id := s.nextBountyId
                 creator := sender
                 initialAmount := amount
                 currentAmount := amount
                 maxAmount := maxAmount
                 repository := repository
                 issueId := issueId
                 issueUrl := issueUrl
                 status := .Active
                 solver := 0
                 solverGithubLogin := ""
                 pullRequestUrl := ""
                 createdAt := now
                 claimedAt := 0
                 expiresAt := expiresAt
                 escalationCount := 0 }]
            issueToBountyId := ((repository, issueId), s.nextBountyId) :: s.issueToBountyId
            erc20 := tok },
         s.nextBountyId)

/-- `escalateBounty(bountyId, additionalAmount)` with `msg.sender =
sender`. Guard order follows the source: `whenNotPaused`, existence,
status, authorization (creator or `ORACLE_ROLE`), the checked `uint256`
addition, the cap check, the checked `uint8` increment of
`escalationCount`, then `safeTransferFrom` only when
`additionalAmount > 0`. -/
def escalateBounty (s : EscrowState) (sender bountyId additionalAmount : Nat) :
    Except Err EscrowState :=
  if s.paused then .error .EnforcedPause
  else
    match findBounty s.bounties bountyId with
    | none => .error .BountyNotFound
    | some b =>
      if b.status ≠ .Active then .error .BountyNotActive
      else if b.creator ≠ sender ∧ sender ∉ s.oracles then .error .UnauthorizedCaller
      else if b.currentAmount + additionalAmount ≥ UINT256 then .error .ArithmeticPanic
      else if b.currentAmount + additionalAmount > b.maxAmount then .error .MaxAmountExceeded
      else if b.escalationCount + 1 ≥ UINT8 then .error .ArithmeticPanic
      else if additionalAmount > 0 then
        match transfer s.erc20 sender s.self additionalAmount with
        | none => .error .TransferFailed
        | some tok =>
            .ok { s with
              bounties := setBounty s.bounties bountyId
                { b with
                  currentAmount := b.currentAmount + additionalAmount
                  escalationCount := b.escalationCount + 1 }
              erc20 := tok }
      else
        .ok { s with
          bounties := setBounty s.bounties bountyId
            { b with
              currentAmount := b.currentAmount + additionalAmount
              escalationCount := b.escalationCount + 1 } }

/-- `releaseBounty(bountyId, solver, solverGithubLogin, pullRequestUrl)`
with `msg.sender = sender`, `block.timestamp = now`. Modifier order as in
the source: `onlyRole(ORACLE_ROLE)` first, then `whenNotPaused`; then the
zero-solver check, existence, status; fee math with checked `uint256`
multiplication and subtraction; `safeTransfer` of the solver amount; and
the fee `safeTransfer` only when `platformFee > 0 && feeRecipient !=
address(0)` (a zero fee recipient silently keeps the fee in escrow). -/
def releaseBounty (s : EscrowState) (sender now bountyId : Nat) (solver : Addr)
    (solverGithubLogin pullRequestUrl : String) : Except Err EscrowState :=
  if sender ∉ s.oracles then .error .MissingRole
  else if s.paused then .error .EnforcedPause
  else if solver = 0 then .error .InvalidSolverAddress
  else
    match findBounty s.bounties bountyId with
    | none => .error .BountyNotFound
    | some b =>
      if b.status ≠ .Active then .error .BountyNotActive
      else if b.currentAmount * s.platformFeeBps ≥ UINT256 then .error .ArithmeticPanic
      else if b.currentAmount < platformFeeOf b.currentAmount s.platformFeeBps then
        .error .ArithmeticPanic
      else
        match transfer s.erc20 s.self solver
            (b.currentAmount - platformFeeOf b.currentAmount s.platformFeeBps) with
        | none => .error .TransferFailed
        | some tok1 =>
          if platformFeeOf b.currentAmount s.platformFeeBps > 0 ∧ s.feeRecipient ≠ 0 then
            match transfer tok1 s.self s.feeRecipient
                (platformFeeOf b.currentAmount s.platformFeeBps) with
            | none => .error .TransferFailed
            | some tok2 =>
                .ok { s with
                  bounties := setBounty s.bounties bountyId
                    { b with
                      status := .Claimed
                      solver := solver
                      solverGithubLogin := solverGithubLogin
                      pullRequestUrl := pullRequestUrl
                      claimedAt := now }
                  erc20 := tok2 }
          else
            .ok { s with
              bounties := setBounty s.bounties bountyId
                { b with
                  status := .Claimed
                  solver := solver
                  solverGithubLogin := solverGithubLogin
                  pullRequestUrl := pullRequestUrl
                  claimedAt := now }
              erc20 := tok1 }

/-- `cancelBounty(bountyId)` with `msg.sender = sender`. No pause check in
the source. Refunds `currentAmount` to the creator and transitions to
Cancelled. -/
def cancelBounty (s : EscrowState) (sender bountyId : Nat) : Except Err EscrowState :=
  match findBounty s.bounties bountyId with
  | none => .error .BountyNotFound
  | some b =>
    if b.status ≠ .Active then .error .BountyNotActive
    else if b.creator ≠ sender ∧ sender ∉ s.admins then .error .UnauthorizedCaller
    else
      match transfer s.erc20 s.self b.creator b.currentAmount with
      | none => .error .TransferFailed
      | some tok =>
          .ok { s with
            bounties := setBounty s.bounties bountyId { b with status := .Cancelled }
            erc20 := tok }

/-- `claimExpiredBounty(bountyId)` with `block.timestamp = now`.
Permissionless and not pause-gated. NOTE (faithful to the source, line
614): an Active bounty that has no expiry or has not yet expired reverts
with `BountyNotActive` — the contract has no dedicated `NotYetExpired`
error. -/
def claimExpiredBounty (s : EscrowState) (now bountyId : Nat) : Except Err EscrowState :=
  match findBounty s.bounties bountyId with
  | none => .error .BountyNotFound
  | some b =>
    if b.status ≠ .Active then .error .BountyNotActive
    else if b.expiresAt = 0 ∨ now < b.expiresAt then .error .BountyNotActive
    else
      match transfer s.erc20 s.self b.creator b.currentAmount with
      | none => .error .TransferFailed
      | some tok =>
          .ok { s with
            bounties := setBounty s.bounties bountyId { b with status := .Expired }
            erc20 := tok }

/-- `updateConfig` — `ADMIN_ROLE` only; `_feeRecipient` is not validated. -/
def updateConfig (s : EscrowState) (sender : Addr)
    (_minBountyAmount _maxBountyAmount _platformFeeBps : Nat) (_feeRecipient : Addr) :
    Except Err EscrowState :=
  if sender ∉ s.admins then .error .MissingRole
  else if _minBountyAmount = 0 ∨ _maxBountyAmount < _minBountyAmount then
    .error .InvalidConfiguration
  else if _platformFeeBps > 1000 then .error .InvalidConfiguration
  else .ok { s with
    minBountyAmount := _minBountyAmount
    maxBountyAmount := _maxBountyAmount
    platformFeeBps := _platformFeeBps
    feeRecipient := _feeRecipient }

/-- `pause()` — `ADMIN_ROLE` only; `Pausable._pause` reverts when already
paused. -/
def pause (s : EscrowState) (sender : Addr) : Except Err EscrowState :=
  if sender ∉ s.admins then .error .MissingRole
  else if s.paused then .error .EnforcedPause
  else .ok { s with paused := true }

/-- `unpause()` — `ADMIN_ROLE` only; `Pausable._unpause` reverts when not
paused. -/
def unpause (s : EscrowState) (sender : Addr) : Except Err EscrowState :=
  if sender ∉ s.admins then .error .MissingRole
  else if ¬ s.paused then .error .ExpectedPause
  else .ok { s with paused := false }

/-- `emergencyWithdraw(token, amount)` — `ADMIN_ROLE` only. The source
transfers `amount` of ANY `token` to the caller with no restriction: when
`token` is the MNEE token itself this debits the escrow's custody without
touching any bounty. Withdrawals of other tokens do not affect the MNEE
balance book. -/
def emergencyWithdraw (s : EscrowState) (sender token : Addr) (amount : Nat) :
    Except Err EscrowState :=
  if sender ∉ s.admins then .error .MissingRole
  else if token = s.mneeToken then
    match transfer s.erc20 s.self sender amount with
    | none => .error .TransferFailed
    | some tok => .ok { s with erc20 := tok }
  else .ok s

/-- The contract's mutating entry points, as transactions: each carries
`msg.sender` and, where the source reads it, `block.timestamp`. -/
inductive Op where
  | create (sender now : Nat) (repository : String) (issueId : Nat)
      (issueUrl : String) (amount maxAmount expiresAt : Nat)
  | escalate (sender bountyId additionalAmount : Nat)
  | release (sender now bountyId : Nat) (solver : Addr)
      (solverGithubLogin pullRequestUrl : String)
  | cancel (sender bountyId : Nat)
  | claimExpired (now bountyId : Nat)
  | config (sender minA maxA feeBps : Nat) (feeRecip : Addr)
  | pause (sender : Nat)
  | unpause (sender : Nat)
  | withdraw (sender token amount : Nat)

/-- Transaction semantics: a successful call commits the new state, a
reverted call leaves the state unchanged. -/
def execOp (s : EscrowState) : Op → EscrowState
  | .create sender now repo issueId url amount maxA expiresAt =>
      match createBounty s sender now repo issueId url amount maxA expiresAt with
      | .ok (s', _) => s'
      | .error _ => s
  | .escalate sender bountyId additionalAmount =>
      match escalateBounty s sender bountyId additionalAmount with
      | .ok s' => s'
      | .error _ => s
  | .release sender now bountyId solver lg pr =>
      match releaseBounty s sender now bountyId solver lg pr with
      | .ok s' => s'
      | .error _ => s
  | .cancel sender bountyId =>
      match cancelBounty s sender bountyId with
      | .ok s' => s'
      | .error _ => s
  | .claimExpired now bountyId =>
      match claimExpiredBounty s now bountyId with
      | .ok s' => s'
      | .error _ => s
  | .config sender minA maxA feeBps feeRecip =>
      match updateConfig s sender minA maxA feeBps feeRecip with
      | .ok s' => s'
      | .error _ => s
  | .pause sender =>
      match pause s sender with
      | .ok s' => s'
      | .error _ => s
  | .unpause sender =>
      match unpause s sender with
      | .ok s' => s'
      | .error _ => s
  | .withdraw sender token amount =>
      match emergencyWithdraw s sender token amount with
      | .ok s' => s'
      | .error _ => s

/-- A sequence of committed transactions. -/
def execTrace (s : EscrowState) (ops : List Op) : EscrowState := ops.foldl execOp s

/-- The contribution of one bounty to the custody target: `currentAmount`
while Active, 0 otherwise. -/
def contrib (b : Bounty) : Nat := if b.status = .Active then b.currentAmount else 0

/-- Sum of `currentAmount` over all Active bounties. -/
def activeSum (bs : List Bounty) : Nat := (bs.map contrib).sum

/-- The custody invariant of the spec: the MNEE value held by the escrow
contract equals the sum of `currentAmount` over Active bounties. -/
def custodyOk (s : EscrowState) : Prop :=
  balanceOf s.erc20 s.self = activeSum s.bounties

/-- The inductive state invariant for the custody theorem: custody matches
the Active sum, the fee recipient is a real external account, every
bounty's creator is an external account, and bounty ids are fresh and
unique. All of it holds for a freshly deployed contract with a nonzero,
non-self fee recipient, and is preserved by every benign transaction. -/
structure Good (s : EscrowState) : Prop where
  custody : balanceOf s.erc20 s.self = activeSum s.bounties
  fee_nz : s.feeRecipient ≠ 0
  fee_ns : s.feeRecipient ≠ s.self
  creators : ∀ b ∈ s.bounties, b.creator ≠ s.self
  ids_lt : ∀ b ∈ s.bounties, b.id < s.nextBountyId
  nodup : (s.bounties.map Bounty.id).Nodup

/-- The transactions under which custody is preserved: everything except
`emergencyWithdraw` of the MNEE token itself, an `updateConfig` that sets
the fee recipient to the zero address or to the escrow, and degenerate
calls made by (or paying out to) the escrow's own address — which cannot
originate from externally owned accounts in practice. -/
def benign (self mnee : Addr) : Op → Prop
  | .create sender _ _ _ _ _ _ _ => sender ≠ self
  | .escalate sender _ _ => sender ≠ self
  | .release _ _ _ solver _ _ => solver ≠ self
  | .config _ _ _ _ feeRecip => feeRecip ≠ 0 ∧ feeRecip ≠ self
  | .withdraw _ token _ => token ≠ mnee
  | _ => True

/-- Overwrite only the pause flag (used to compare a paused run with the
same run while unpaused). -/
def setPaused (s : EscrowState) (p : Bool) : EscrowState := { s with paused := p }

/-- `1e18`: one whole MNEE token in atomic units (18 decimals). -/
def E18 : Nat := 10 ^ 18

/-- Concrete deployed scenario: the escrow contract is address 1, the MNEE
token contract address 2, admin 3, oracle 4, fee recipient 5; a creator at
address 10 starts with 1000 MNEE. Equals the result of
`deploy 1 2 3 4 5 [(10, 1000 * E18)]`. -/
def s0W : EscrowState :=
  { self := 1
    mneeToken := 2
    erc20 := [(10, 1000 * E18)]
    nextBountyId := 1
    minBountyAmount := 10 ^ 18
    maxBountyAmount := 1000000 * 10 ^ 18
    platformFeeBps := 250
    feeRecipient := 5
    admins := [3]
    oracles := [4]
    bounties := []
    issueToBountyId := []
    paused := false }

/-- The scenario state after the creator (10) locks a 100 MNEE bounty
(cap 300 MNEE, no expiry) on issue 1 of "owner/repo" at time 100. -/
def s1W : EscrowState :=
  execOp s0W (.create 10 100 "owner/repo" 1 "u" (100 * E18) (300 * E18) 0)

/-- The bounty stored in `s1W`. -/
def bW : Bounty :=
  { id := 1
    creator := 10
    initialAmount := 100 * E18
    currentAmount := 100 * E18
    maxAmount := 300 * E18
    repository := "owner/repo"
    issueId := 1
    issueUrl := "u"
    status := .Active
    solver := 0
    solverGithubLogin := ""
    pullRequestUrl := ""
    createdAt := 100
    claimedAt := 0
    expiresAt := 0
    escalationCount := 0 }

/-- `s1W` after 255 committed zero-amount escalations by the creator:
the stored `escalationCount` (a `uint8`) sits at its maximum, 255. -/
def s255W : EscrowState := execTrace s1W (List.replicate 255 (.escalate 10 1 0))

/-- The bounty stored in `s255W`. -/
def b255W : Bounty := { bW with escalationCount := 255 }

/-- Like `s0W` but deployed with `feeRecipient = address(0)` — the
constructor does not reject this. -/
def s0Z : EscrowState := { s0W with feeRecipient := 0 }

/-- `s0Z` after the creator locks a 100 MNEE bounty. -/
def s1Z : EscrowState :=
  execOp s0Z (.create 10 100 "owner/repo" 1 "u" (100 * E18) (300 * E18) 0)

/-- Like `s1W` but the bounty expires at time 5000. -/
def s1E : EscrowState :=
  execOp s0W (.create 10 100 "owner/repo" 1 "u" (100 * E18) (300 * E18) 5000)

/-- The bounty stored in `s1E`. -/
def bE : Bounty := { bW with expiresAt := 5000 }

end BountyEscrow

namespace PaymentGateway

/-- The rail-selection façade `PaymentService` (src/unnamed/part_002):
`useBlockchain` is `USE_BLOCKCHAIN === 'true'`, `initialized` is set by
`initialize()`. -/
structure PaymentService where
  useBlockchain : Bool
  initialized : Bool

/-- Observable outcome of a gateway call: the `null` sentinel returned
without touching any rail, the not-initialized exception from
`_ensureInitialized()`, or a call forwarded to the Ethereum service. -/
inductive RailResult where
  | sentinelNull
  | thrownUninitialized
  | forwarded
deriving DecidableEq

/-- `PaymentService.createOnChainBounty`: returns `null` before any other
check when blockchain mode is off. -/
def createOnChainBounty (svc : PaymentService) (_repository : String)
    (_issueId : Nat) (_issueUrl : String) (_amount _maxAmount _expiresAt : Nat) :
    RailResult :=
  if ¬ svc.useBlockchain then .sentinelNull
  else if ¬ svc.initialized then .thrownUninitialized
  else .forwarded

/-- `PaymentService.escalateOnChainBounty`. -/
def escalateOnChainBounty (svc : PaymentService)
    (_onChainBountyId _additionalAmount : Nat) : RailResult :=
  if ¬ svc.useBlockchain then .sentinelNull
  else if ¬ svc.initialized then .thrownUninitialized
  else .forwarded

/-- `PaymentService.releaseOnChainBounty`. -/
def releaseOnChainBounty (svc : PaymentService) (_onChainBountyId : Nat)
    (_solverAddress _solverGithubLogin _pullRequestUrl : String) : RailResult :=
  if ¬ svc.useBlockchain then .sentinelNull
  else if ¬ svc.initialized then .thrownUninitialized
  else .forwarded

/-- `PaymentService.getOnChainBounty`. -/
def getOnChainBounty (svc : PaymentService) (_onChainBountyId : Nat) : RailResult :=
  if ¬ svc.useBlockchain then .sentinelNull
  else if ¬ svc.initialized then .thrownUninitialized
  else .forwarded

/-- `EthereumPaymentService.calculateFee` (src/bot/src/services/
ethereumPayment.js line 692): `(amount * Number(feeBps)) / 10000` — plain
JavaScript number division, with NO rounding down. Modeled over ℚ; the
IEEE-754 double rounding of `/` is irrelevant to the facts proved below,
which only use values that doubles represent exactly. -/
def calculateFee (amount feeBps : ℚ) : ℚ := amount * feeBps / 10000

end PaymentGateway

namespace BountyEscrow

@[simp] theorem balanceOf_nil (x : Addr) : balanceOf [] x = 0 := rfl

@[simp] theorem balanceOf_cons (a : Addr) (w : Nat) (rest : Balances) (x : Addr) :
    balanceOf ((a, w) :: rest) x = if a = x then w else balanceOf rest x := rfl

theorem setBalance_cons (a' : Addr) (w : Nat) (rest : Balances) (a : Addr) (v : Nat) :
    setBalance ((a', w) :: rest) a v =
      if a' = a then (a, v) :: rest else (a', w) :: setBalance rest a v := rfl

@[simp] theorem findBounty_nil (id : Nat) : findBounty [] id = none := rfl

@[simp] theorem findBounty_cons (b : Bounty) (rest : List Bounty) (id : Nat) :
    findBounty (b :: rest) id = if b.id = id then some b else findBounty rest id := rfl

@[simp] theorem setBounty_nil (id : Nat) (b' : Bounty) : setBounty [] id b' = [] := rfl

@[simp] theorem setBounty_cons (b : Bounty) (rest : List Bounty) (id : Nat) (b' : Bounty) :
    setBounty (b :: rest) id b' =
      if b.id = id then b' :: setBounty rest id b' else b :: setBounty rest id b' := rfl

@[simp] theorem lookupIssue_nil (k : String × Nat) : lookupIssue [] k = 0 := rfl

@[simp] theorem lookupIssue_cons (k' : String × Nat) (v : Nat)
    (rest : List ((String × Nat) × Nat)) (k : String × Nat) :
    lookupIssue ((k', v) :: rest) k = if k' = k then v else lookupIssue rest k := rfl

theorem balanceOf_setBalance (bk : Balances) (a : Addr) (v : Nat) (x : Addr) :
    balanceOf (setBalance bk a v) x = if a = x then v else balanceOf bk x := by
  induction bk with
  | nil => simp [setBalance]
  | cons p rest ih =>
    obtain ⟨a', w⟩ := p
    rw [setBalance_cons]
    split_ifs with h <;> simp_all

theorem transfer_le (bk bk' : Balances) (src dst : Addr) (amt : Nat)
    (h : transfer bk src dst amt = some bk') : amt ≤ balanceOf bk src := by
  unfold transfer at h
  split_ifs at h with h1 h2
  omega

theorem transfer_balanceOf (bk bk' : Balances) (src dst : Addr) (amt : Nat)
    (h : transfer bk src dst amt = some bk') (x : Addr) :
    balanceOf bk' x =
      if src = x then (if dst = x then balanceOf bk x else balanceOf bk x - amt)
      else if dst = x then balanceOf bk x + amt
      else balanceOf bk x := by
  unfold transfer at h
  split_ifs at h with h1 h2
  injection h with h
  subst h
  simp only [balanceOf_setBalance]
  split_ifs <;> simp_all

theorem transfer_balanceOf_src (bk bk' : Balances) (src dst : Addr) (amt : Nat)
    (h : transfer bk src dst amt = some bk') (hne : dst ≠ src) :
    balanceOf bk' src = balanceOf bk src - amt := by
  have hx := transfer_balanceOf _ _ _ _ _ h src
  simp [hne] at hx
  exact hx

theorem transfer_balanceOf_dst (bk bk' : Balances) (src dst : Addr) (amt : Nat)
    (h : transfer bk src dst amt = some bk') (hne : src ≠ dst) :
    balanceOf bk' dst = balanceOf bk dst + amt := by
  have hx := transfer_balanceOf _ _ _ _ _ h dst
  simp [hne] at hx
  exact hx

theorem transfer_balanceOf_other (bk bk' : Balances) (src dst : Addr) (amt : Nat)
    (x : Addr) (h : transfer bk src dst amt = some bk') (h1 : src ≠ x) (h2 : dst ≠ x) :
    balanceOf bk' x = balanceOf bk x := by
  have hx := transfer_balanceOf _ _ _ _ _ h x
  simp [h1, h2] at hx
  exact hx

theorem findBounty_id (bs : List Bounty) (id : Nat) (b : Bounty)
    (h : findBounty bs id = some b) : b.id = id := by
  induction bs with
  | nil => simp at h
  | cons hd rest ih =>
    rw [findBounty_cons] at h
    split_ifs at h with hh
    · cases h; exact hh
    · exact ih h

theorem findBounty_mem (bs : List Bounty) (id : Nat) (b : Bounty)
    (h : findBounty bs id = some b) : b ∈ bs := by
  induction bs with
  | nil => simp at h
  | cons hd rest ih =>
    rw [findBounty_cons] at h
    split_ifs at h with hh
    · cases h; exact List.mem_cons_self _ _
    · exact List.mem_cons_of_mem _ (ih h)

theorem findBounty_setBounty (bs : List Bounty) (id : Nat) (b b' : Bounty)
    (h : findBounty bs id = some b) (hid : b'.id = id) :
    findBounty (setBounty bs id b') id = some b' := by
  induction bs with
  | nil => simp at h
  | cons hd rest ih =>
    rw [findBounty_cons] at h
    rw [setBounty_cons]
    split_ifs at h with hh
    · rw [if_pos hh, findBounty_cons, if_pos hid]
    · rw [if_neg hh, findBounty_cons, if_neg hh]
      exact ih h

theorem setBounty_of_not_mem (bs : List Bounty) (id : Nat) (b' : Bounty)
    (h : ∀ b ∈ bs, b.id ≠ id) : setBounty bs id b' = bs := by
  induction bs with
  | nil => rfl
  | cons hd rest ih =>
    rw [setBounty_cons, if_neg (h hd (List.mem_cons_self _ _))]
    rw [ih (fun b hb => h b (List.mem_cons_of_mem _ hb))]

theorem map_id_setBounty (bs : List Bounty) (id : Nat) (b' : Bounty)
    (hid : b'.id = id) :
    (setBounty bs id b').map Bounty.id = bs.map Bounty.id := by
  induction bs with
  | nil => rfl
  | cons hd rest ih =>
    rw [setBounty_cons]
    split_ifs with hh
    · simp [List.map_cons, ih, hid, hh]
    · simp [List.map_cons, ih]

theorem mem_setBounty (bs : List Bounty) (id : Nat) (b' y : Bounty)
    (h : y ∈ setBounty bs id b') : y ∈ bs ∨ y = b' := by
  induction bs with
  | nil => simp at h
  | cons hd rest ih =>
    rw [setBounty_cons] at h
    split_ifs at h with hh
    · rcases List.mem_cons.mp h with h1 | h1
      · right; exact h1
      · rcases ih h1 with h2 | h2
        · left; exact List.mem_cons_of_mem _ h2
        · right; exact h2
    · rcases List.mem_cons.mp h with h1 | h1
      · left; rw [h1]; exact List.mem_cons_self _ _
      · rcases ih h1 with h2 | h2
        · left; exact List.mem_cons_of_mem _ h2
        · right; exact h2

theorem activeSum_append (bs : List Bounty) (b : Bounty) :
    activeSum (bs ++ [b]) = activeSum bs + contrib b := by
  simp [activeSum]

theorem activeSum_setBounty (bs : List Bounty) (id : Nat) (b b' : Bounty)
    (hnd : (bs.map Bounty.id).Nodup) (h : findBounty bs id = some b) :
    activeSum (setBounty bs id b') + contrib b = activeSum bs + contrib b' := by
  induction bs with
  | nil => simp at h
  | cons hd rest ih =>
    rw [findBounty_cons] at h
    rw [setBounty_cons]
    rw [List.map_cons, List.nodup_cons] at hnd
    split_ifs at h ⊢ with hh
    · cases h
      have hrest : setBounty rest id b' = rest := by
        apply setBounty_of_not_mem
        intro c hc hcid
        apply hnd.1
        rw [hh, ← hcid]
        exact List.mem_map_of_mem _ hc
      rw [hrest]
      simp only [activeSum, List.map_cons, List.sum_cons]
      omega
    · have := ih hnd.2 h
      simp only [activeSum, List.map_cons, List.sum_cons] at this ⊢
      omega

theorem contrib_le_activeSum (bs : List Bounty) (b : Bounty) (h : b ∈ bs) :
    contrib b ≤ activeSum bs := by
  induction bs with
  | nil => simp at h
  | cons hd rest ih =>
    simp only [activeSum, List.map_cons, List.sum_cons]
    rcases List.mem_cons.mp h with h1 | h1
    · rw [h1]; omega
    · have := ih h1
      simp only [activeSum] at this
      omega

theorem good_config (s : EscrowState) (sender minA maxA feeBps : Nat) (feeRecip : Addr)
    (hb : feeRecip ≠ 0 ∧ feeRecip ≠ s.self) (hg : Good s) :
    Good (execOp s (.config sender minA maxA feeBps feeRecip)) := by
  simp only [execOp]
  cases hc : updateConfig s sender minA maxA feeBps feeRecip with
  | error e => exact hg
  | ok s' =>
    unfold updateConfig at hc
    split_ifs at hc
    cases hc
    exact { custody := hg.custody, fee_nz := hb.1, fee_ns := hb.2,
            creators := hg.creators, ids_lt := hg.ids_lt, nodup := hg.nodup }

theorem good_pause (s : EscrowState) (sender : Nat) (hg : Good s) :
    Good (execOp s (.pause sender)) := by
  simp only [execOp]
  cases hc : pause s sender with
  | error e => exact hg
  | ok s' =>
    unfold pause at hc
    split_ifs at hc
    cases hc
    exact { custody := hg.custody, fee_nz := hg.fee_nz, fee_ns := hg.fee_ns,
            creators := hg.creators, ids_lt := hg.ids_lt, nodup := hg.nodup }

theorem good_unpause (s : EscrowState) (sender : Nat) (hg : Good s) :
    Good (execOp s (.unpause sender)) := by
  simp only [execOp]
  cases hc : unpause s sender with
  | error e => exact hg
  | ok s' =>
    unfold unpause at hc
    split_ifs at hc
    cases hc
    exact { custody := hg.custody, fee_nz := hg.fee_nz, fee_ns := hg.fee_ns,
            creators := hg.creators, ids_lt := hg.ids_lt, nodup := hg.nodup }

theorem good_withdraw (s : EscrowState) (sender token amount : Nat)
    (hb : token ≠ s.mneeToken) (hg : Good s) :
    Good (execOp s (.withdraw sender token amount)) := by
  simp only [execOp]
  cases hc : emergencyWithdraw s sender token amount with
  | error e => exact hg
  | ok s' =>
    unfold emergencyWithdraw at hc
    rw [if_neg hb] at hc
    split_ifs at hc with h1
    cases hc
    exact hg

theorem good_create (s : EscrowState) (sender now : Nat) (repo : String)
    (issueId : Nat) (url : String) (amount maxA expiresAt : Nat)
    (hb : sender ≠ s.self) (hg : Good s) :
    Good (execOp s (.create sender now repo issueId url amount maxA expiresAt)) := by
  simp only [execOp]
  cases hc : createBounty s sender now repo issueId url amount maxA expiresAt with
  | error e => exact hg
  | ok p =>
    obtain ⟨s', newId⟩ := p
    unfold createBounty at hc
    split_ifs at hc with h1 h2 h3 h4 h5 h6
    cases ht : transfer s.erc20 sender s.self amount with
    | none => rw [ht] at hc; cases hc
    | some tok =>
      rw [ht] at hc
      simp only [Except.ok.injEq, Prod.mk.injEq] at hc
      obtain ⟨rfl, rfl⟩ := hc
      refine { custody := ?_, fee_nz := hg.fee_nz, fee_ns := hg.fee_ns,
               creators := ?_, ids_lt := ?_, nodup := ?_ }
      · show balanceOf tok s.self = activeSum (s.bounties ++ [_])
        rw [activeSum_append]
        have hbal := transfer_balanceOf _ _ _ _ _ ht s.self
        rw [if_neg hb, if_pos rfl] at hbal
        rw [hbal, hg.custody]
        simp [contrib]
      · intro b hbm
        rcases List.mem_append.mp hbm with h | h
        · exact hg.creators b h
        · rw [List.mem_singleton] at h
          subst h
          exact hb
      · intro b hbm
        show b.id < s.nextBountyId + 1
        rcases List.mem_append.mp hbm with h | h
        · have := hg.ids_lt b h; omega
        · rw [List.mem_singleton] at h
          subst h
          show s.nextBountyId < s.nextBountyId + 1
          omega
      · show (List.map Bounty.id (s.bounties ++ [_])).Nodup
        rw [List.map_append, List.nodup_append]
        refine ⟨hg.nodup, List.nodup_singleton _, ?_⟩
        intro x hx hy
        rw [List.map_singleton, List.mem_singleton] at hy
        have hy' : x = s.nextBountyId := hy
        obtain ⟨b, hbmem, hbid⟩ := List.mem_map.mp hx
        have := hg.ids_lt b hbmem
        omega

theorem good_fields_setBounty (s : EscrowState) (bountyId : Nat) (b b' : Bounty)
    (hf : findBounty s.bounties bountyId = some b)
    (hcr : b'.creator = b.creator) (hid : b'.id = b.id) (hg : Good s) :
    (∀ c ∈ setBounty s.bounties bountyId b', c.creator ≠ s.self)
    ∧ (∀ c ∈ setBounty s.bounties bountyId b', c.id < s.nextBountyId)
    ∧ ((setBounty s.bounties bountyId b').map Bounty.id).Nodup := by
  have hmem := findBounty_mem _ _ _ hf
  have hbid := findBounty_id _ _ _ hf
  refine ⟨?_, ?_, ?_⟩
  · intro c hcm
    rcases mem_setBounty _ _ _ _ hcm with h | h
    · exact hg.creators c h
    · rw [h, hcr]; exact hg.creators b hmem
  · intro c hcm
    rcases mem_setBounty _ _ _ _ hcm with h | h
    · exact hg.ids_lt c h
    · rw [h, hid]; exact hg.ids_lt b hmem
  · rw [map_id_setBounty _ _ _ (by rw [hid, hbid])]
    exact hg.nodup

theorem escalateBounty_ok (s : EscrowState) (sender bountyId additionalAmount : Nat)
    (s' : EscrowState) (h : escalateBounty s sender bountyId additionalAmount = .ok s') :
    ∃ b tokNew,
      findBounty s.bounties bountyId = some b
      ∧ s.paused = false
      ∧ b.status = .Active
      ∧ (b.creator = sender ∨ sender ∈ s.oracles)
      ∧ b.currentAmount + additionalAmount < UINT256
      ∧ b.currentAmount + additionalAmount ≤ b.maxAmount
      ∧ b.escalationCount + 1 < UINT8
      ∧ ((0 < additionalAmount ∧ transfer s.erc20 sender s.self additionalAmount = some tokNew)
          ∨ (additionalAmount = 0 ∧ tokNew = s.erc20))
      ∧ s' = { s with
          bounties := setBounty s.bounties bountyId
            { b with currentAmount := b.currentAmount + additionalAmount
                     escalationCount := b.escalationCount + 1 }
          erc20 := tokNew } := by
  unfold escalateBounty at h
  split at h
  · cases h
  rename_i hp
  split at h
  · cases h
  rename_i b hf
  split at h
  · cases h
  rename_i hst
  split at h
  · cases h
  rename_i hau
  split at h
  · cases h
  rename_i hov
  split at h
  · cases h
  rename_i hcap
  split at h
  · cases h
  rename_i hov8
  split at h
  · rename_i hpos
    split at h
    · cases h
    rename_i tok ht
    cases h
    exact ⟨b, tok, hf, by simpa using hp, not_not.mp hst, by tauto,
      by omega, by omega, by omega, Or.inl ⟨hpos, ht⟩, rfl⟩
  · rename_i hzero
    cases h
    exact ⟨b, s.erc20, hf, by simpa using hp, not_not.mp hst, by tauto,
      by omega, by omega, by omega, Or.inr ⟨by omega, rfl⟩, rfl⟩

theorem cancelBounty_ok (s : EscrowState) (sender bountyId : Nat) (s' : EscrowState)
    (h : cancelBounty s sender bountyId = .ok s') :
    ∃ b tok,
      findBounty s.bounties bountyId = some b
      ∧ b.status = .Active
      ∧ (b.creator = sender ∨ sender ∈ s.admins)
      ∧ transfer s.erc20 s.self b.creator b.currentAmount = some tok
      ∧ s' = { s with
          bounties := setBounty s.bounties bountyId { b with status := .Cancelled }
          erc20 := tok } := by
  unfold cancelBounty at h
  split at h
  · cases h
  rename_i b hf
  split at h
  · cases h
  rename_i hst
  split at h
  · cases h
  rename_i hau
  split at h
  · cases h
  rename_i tok ht
  cases h
  exact ⟨b, tok, hf, not_not.mp hst, by tauto, ht, rfl⟩

theorem claimExpiredBounty_ok (s : EscrowState) (now bountyId : Nat) (s' : EscrowState)
    (h : claimExpiredBounty s now bountyId = .ok s') :
    ∃ b tok,
      findBounty s.bounties bountyId = some b
      ∧ b.status = .Active
      ∧ b.expiresAt ≠ 0 ∧ b.expiresAt ≤ now
      ∧ transfer s.erc20 s.self b.creator b.currentAmount = some tok
      ∧ s' = { s with
          bounties := setBounty s.bounties bountyId { b with status := .Expired }
          erc20 := tok } := by
  unfold claimExpiredBounty at h
  split at h
  · cases h
  rename_i b hf
  split at h
  · cases h
  rename_i hst
  split at h
  · cases h
  rename_i hexp
  split at h
  · cases h
  rename_i tok ht
  cases h
  push_neg at hexp
  exact ⟨b, tok, hf, not_not.mp hst, hexp.1, by omega, ht, rfl⟩

theorem releaseBounty_ok (s : EscrowState) (sender now bountyId : Nat) (solver : Addr)
    (lg pr : String) (s' : EscrowState)
    (h : releaseBounty s sender now bountyId solver lg pr = .ok s') :
    ∃ b tok1 tokNew,
      findBounty s.bounties bountyId = some b
      ∧ sender ∈ s.oracles
      ∧ s.paused = false
      ∧ solver ≠ 0
      ∧ b.status = .Active
      ∧ b.currentAmount * s.platformFeeBps < UINT256
      ∧ platformFeeOf b.currentAmount s.platformFeeBps ≤ b.currentAmount
      ∧ transfer s.erc20 s.self solver
          (b.currentAmount - platformFeeOf b.currentAmount s.platformFeeBps) = some tok1
      ∧ ((0 < platformFeeOf b.currentAmount s.platformFeeBps ∧ s.feeRecipient ≠ 0
            ∧ transfer tok1 s.self s.feeRecipient
                (platformFeeOf b.currentAmount s.platformFeeBps) = some tokNew)
          ∨ ((platformFeeOf b.currentAmount s.platformFeeBps = 0 ∨ s.feeRecipient = 0)
            ∧ tokNew = tok1))
      ∧ s' = { s with
          bounties := setBounty s.bounties bountyId
            { b with status := .Claimed, solver := solver,
                     solverGithubLogin := lg, pullRequestUrl := pr, claimedAt := now }
          erc20 := tokNew } := by
  unfold releaseBounty at h
  split at h
  · cases h
  rename_i hor
  split at h
  · cases h
  rename_i hp
  split at h
  · cases h
  rename_i hsz
  split at h
  · cases h
  rename_i b hf
  split at h
  · cases h
  rename_i hst
  split at h
  · cases h
  rename_i hov
  split at h
  · cases h
  rename_i hsub
  split at h
  · cases h
  rename_i tok1 ht1
  split at h
  · rename_i hfee
    split at h
    · cases h
    rename_i tok2 ht2
    cases h
    exact ⟨b, tok1, tok2, hf, not_not.mp hor, by simpa using hp, hsz,
      not_not.mp hst, by omega, by omega, ht1, Or.inl ⟨hfee.1, hfee.2, ht2⟩, rfl⟩
  · rename_i hfee
    cases h
    refine ⟨b, tok1, tok1, hf, not_not.mp hor, by simpa using hp, hsz,
      not_not.mp hst, by omega, by omega, ht1, Or.inr ⟨?_, rfl⟩, rfl⟩
    by_cases h0 : platformFeeOf b.currentAmount s.platformFeeBps = 0
    · exact Or.inl h0
    · right
      by_contra hr
      exact hfee ⟨Nat.pos_of_ne_zero h0, hr⟩

theorem good_escalate (s : EscrowState) (sender bountyId additionalAmount : Nat)
    (hb : sender ≠ s.self) (hg : Good s) :
    Good (execOp s (.escalate sender bountyId additionalAmount)) := by
  simp only [execOp]
  cases hc : escalateBounty s sender bountyId additionalAmount with
  | error e => exact hg
  | ok s' =>
    obtain ⟨b, tokNew, hf, hp, hst, hau, hov, hcap, hov8, htk, rfl⟩ :=
      escalateBounty_ok _ _ _ _ _ hc
    obtain ⟨hcr, hidlt, hnd⟩ := good_fields_setBounty s bountyId b
      { b with currentAmount := b.currentAmount + additionalAmount
               escalationCount := b.escalationCount + 1 } hf rfl rfl hg
    have hsum := activeSum_setBounty s.bounties bountyId b
      { b with currentAmount := b.currentAmount + additionalAmount
               escalationCount := b.escalationCount + 1 } hg.nodup hf
    have hcb : contrib b = b.currentAmount := by simp [contrib, hst]
    have hcb' : contrib { b with
        currentAmount := b.currentAmount + additionalAmount
        escalationCount := b.escalationCount + 1 } =
        b.currentAmount + additionalAmount := by simp [contrib, hst]
    have hcu := hg.custody
    refine { custody := ?_, fee_nz := hg.fee_nz, fee_ns := hg.fee_ns,
             creators := hcr, ids_lt := hidlt, nodup := hnd }
    show balanceOf tokNew s.self = activeSum (setBounty s.bounties bountyId _)
    rcases htk with ⟨hpos, ht⟩ | ⟨hz, rfl⟩
    · have hbal := transfer_balanceOf_dst _ _ _ _ _ ht hb
      omega
    · omega

theorem good_cancel (s : EscrowState) (sender bountyId : Nat) (hg : Good s) :
    Good (execOp s (.cancel sender bountyId)) := by
  simp only [execOp]
  cases hc : cancelBounty s sender bountyId with
  | error e => exact hg
  | ok s' =>
    obtain ⟨b, tok, hf, hst, hau, ht, rfl⟩ := cancelBounty_ok _ _ _ _ hc
    obtain ⟨hcr, hidlt, hnd⟩ := good_fields_setBounty s bountyId b
      { b with status := .Cancelled } hf rfl rfl hg
    have hsum := activeSum_setBounty s.bounties bountyId b
      { b with status := .Cancelled } hg.nodup hf
    have hcb : contrib b = b.currentAmount := by simp [contrib, hst]
    have hcb' : contrib { b with status := .Cancelled } = 0 := by simp [contrib]
    have hcu := hg.custody
    have hle := transfer_le _ _ _ _ _ ht
    have hbal := transfer_balanceOf_src _ _ _ _ _ ht
      (hg.creators b (findBounty_mem _ _ _ hf))
    refine { custody := ?_, fee_nz := hg.fee_nz, fee_ns := hg.fee_ns,
             creators := hcr, ids_lt := hidlt, nodup := hnd }
    show balanceOf tok s.self = activeSum (setBounty s.bounties bountyId _)
    omega

theorem good_claimExpired (s : EscrowState) (now bountyId : Nat) (hg : Good s) :
    Good (execOp s (.claimExpired now bountyId)) := by
  simp only [execOp]
  cases hc : claimExpiredBounty s now bountyId with
  | error e => exact hg
  | ok s' =>
    obtain ⟨b, tok, hf, hst, hex1, hex2, ht, rfl⟩ := claimExpiredBounty_ok _ _ _ _ hc
    obtain ⟨hcr, hidlt, hnd⟩ := good_fields_setBounty s bountyId b
      { b with status := .Expired } hf rfl rfl hg
    have hsum := activeSum_setBounty s.bounties bountyId b
      { b with status := .Expired } hg.nodup hf
    have hcb : contrib b = b.currentAmount := by simp [contrib, hst]
    have hcb' : contrib { b with status := .Expired } = 0 := by simp [contrib]
    have hcu := hg.custody
    have hle := transfer_le _ _ _ _ _ ht
    have hbal := transfer_balanceOf_src _ _ _ _ _ ht
      (hg.creators b (findBounty_mem _ _ _ hf))
    refine { custody := ?_, fee_nz := hg.fee_nz, fee_ns := hg.fee_ns,
             creators := hcr, ids_lt := hidlt, nodup := hnd }
    show balanceOf tok s.self = activeSum (setBounty s.bounties bountyId _)
    omega

theorem good_release (s : EscrowState) (sender now bountyId : Nat) (solver : Addr)
    (lg pr : String) (hb : solver ≠ s.self) (hg : Good s) :
    Good (execOp s (.release sender now bountyId solver lg pr)) := by
  simp only [execOp]
  cases hc : releaseBounty s sender now bountyId solver lg pr with
  | error e => exact hg
  | ok s' =>
    obtain ⟨b, tok1, tokNew, hf, hor, hp, hsz, hst, hov, hsub, ht1, htk, rfl⟩ :=
      releaseBounty_ok _ _ _ _ _ _ _ _ hc
    obtain ⟨hcr, hidlt, hnd⟩ := good_fields_setBounty s bountyId b
      { b with status := .Claimed, solver := solver,
               solverGithubLogin := lg, pullRequestUrl := pr, claimedAt := now }
      hf rfl rfl hg
    have hsum := activeSum_setBounty s.bounties bountyId b
      { b with status := .Claimed, solver := solver,
               solverGithubLogin := lg, pullRequestUrl := pr, claimedAt := now }
      hg.nodup hf
    have hcb : contrib b = b.currentAmount := by simp [contrib, hst]
    have hcb' : contrib
        { b with status := .Claimed, solver := solver, solverGithubLogin := lg,
                 pullRequestUrl := pr, claimedAt := now } = 0 := by
      simp [contrib]
    have hcu := hg.custody
    have hcs : contrib b ≤ activeSum s.bounties :=
      contrib_le_activeSum _ _ (findBounty_mem _ _ _ hf)
    have hle1 := transfer_le _ _ _ _ _ ht1
    have hbal1 := transfer_balanceOf_src _ _ _ _ _ ht1 hb
    refine { custody := ?_, fee_nz := hg.fee_nz, fee_ns := hg.fee_ns,
             creators := hcr, ids_lt := hidlt, nodup := hnd }
    show balanceOf tokNew s.self = activeSum (setBounty s.bounties bountyId _)
    rcases htk with ⟨hfpos, hfr, ht2⟩ | ⟨hzero, rfl⟩
    · have hle2 := transfer_le _ _ _ _ _ ht2
      have hbal2 := transfer_balanceOf_src _ _ _ _ _ ht2 hg.fee_ns
      omega
    · rcases hzero with hz | hz
      · omega
      · exact absurd hz hg.fee_nz

theorem execOp_self_mnee (s : EscrowState) (op : Op) :
    (execOp s op).self = s.self ∧ (execOp s op).mneeToken = s.mneeToken := by
  cases op with
  | create sender now repo issueId url amount maxA expiresAt =>
    simp only [execOp]
    cases hc : createBounty s sender now repo issueId url amount maxA expiresAt with
    | error e => exact ⟨rfl, rfl⟩
    | ok p =>
      obtain ⟨s', newId⟩ := p
      unfold createBounty at hc
      split_ifs at hc with h1 h2 h3 h4 h5 h6
      cases ht : transfer s.erc20 sender s.self amount with
      | none => rw [ht] at hc; cases hc
      | some tok =>
        rw [ht] at hc
        simp only [Except.ok.injEq, Prod.mk.injEq] at hc
        obtain ⟨rfl, rfl⟩ := hc
        exact ⟨rfl, rfl⟩
  | escalate sender bountyId add =>
    simp only [execOp]
    cases hc : escalateBounty s sender bountyId add with
    | error e => exact ⟨rfl, rfl⟩
    | ok s' =>
      obtain ⟨b, tokNew, _, _, _, _, _, _, _, _, rfl⟩ := escalateBounty_ok _ _ _ _ _ hc
      exact ⟨rfl, rfl⟩
  | release sender now bountyId solver lg pr =>
    simp only [execOp]
    cases hc : releaseBounty s sender now bountyId solver lg pr with
    | error e => exact ⟨rfl, rfl⟩
    | ok s' =>
      obtain ⟨b, tok1, tokNew, _, _, _, _, _, _, _, _, _, rfl⟩ :=
        releaseBounty_ok _ _ _ _ _ _ _ _ hc
      exact ⟨rfl, rfl⟩
  | cancel sender bountyId =>
    simp only [execOp]
    cases hc : cancelBounty s sender bountyId with
    | error e => exact ⟨rfl, rfl⟩
    | ok s' =>
      obtain ⟨b, tok, _, _, _, _, rfl⟩ := cancelBounty_ok _ _ _ _ hc
      exact ⟨rfl, rfl⟩
  | claimExpired now bountyId =>
    simp only [execOp]
    cases hc : claimExpiredBounty s now bountyId with
    | error e => exact ⟨rfl, rfl⟩
    | ok s' =>
      obtain ⟨b, tok, _, _, _, _, _, rfl⟩ := claimExpiredBounty_ok _ _ _ _ hc
      exact ⟨rfl, rfl⟩
  | config sender minA maxA feeBps feeRecip =>
    simp only [execOp]
    cases hc : updateConfig s sender minA maxA feeBps feeRecip with
    | error e => exact ⟨rfl, rfl⟩
    | ok s' =>
      unfold updateConfig at hc
      split_ifs at hc
      cases hc
      exact ⟨rfl, rfl⟩
  | pause sender =>
    simp only [execOp]
    cases hc : pause s sender with
    | error e => exact ⟨rfl, rfl⟩
    | ok s' =>
      unfold pause at hc
      split_ifs at hc
      cases hc
      exact ⟨rfl, rfl⟩
  | unpause sender =>
    simp only [execOp]
    cases hc : unpause s sender with
    | error e => exact ⟨rfl, rfl⟩
    | ok s' =>
      unfold unpause at hc
      split_ifs at hc
      cases hc
      exact ⟨rfl, rfl⟩
  | withdraw sender token amount =>
    simp only [execOp]
    cases hc : emergencyWithdraw s sender token amount with
    | error e => exact ⟨rfl, rfl⟩
    | ok s' =>
      unfold emergencyWithdraw at hc
      split_ifs at hc with h1 h2
      · cases ht : transfer s.erc20 s.self sender amount with
        | none => rw [ht] at hc; cases hc
        | some tok =>
          rw [ht] at hc
          cases hc
          exact ⟨rfl, rfl⟩
      · cases hc
        exact ⟨rfl, rfl⟩

theorem good_execOp (s : EscrowState) (op : Op)
    (hb : benign s.self s.mneeToken op) (hg : Good s) : Good (execOp s op) := by
  cases op with
  | create sender now repo issueId url amount maxA expiresAt =>
    exact good_create s sender now repo issueId url amount maxA expiresAt hb hg
  | escalate sender bountyId add => exact good_escalate s sender bountyId add hb hg
  | release sender now bountyId solver lg pr =>
    exact good_release s sender now bountyId solver lg pr hb hg
  | cancel sender bountyId => exact good_cancel s sender bountyId hg
  | claimExpired now bountyId => exact good_claimExpired s now bountyId hg
  | config sender minA maxA feeBps feeRecip =>
    exact good_config s sender minA maxA feeBps feeRecip hb hg
  | pause sender => exact good_pause s sender hg
  | unpause sender => exact good_unpause s sender hg
  | withdraw sender token amount => exact good_withdraw s sender token amount hb hg

theorem createBounty_ok (s : EscrowState) (sender now : Nat) (repo : String)
    (issueId : Nat) (url : String) (amount maxA expiresAt : Nat)
    (s' : EscrowState) (newId : Nat)
    (h : createBounty s sender now repo issueId url amount maxA expiresAt
      = .ok (s', newId)) :
    ∃ tok,
      s.paused = false
      ∧ s.minBountyAmount ≤ amount ∧ amount ≤ s.maxBountyAmount
      ∧ amount ≤ maxA ∧ maxA ≤ s.maxBountyAmount
      ∧ (expiresAt = 0 ∨ now < expiresAt)
      ∧ lookupIssue s.issueToBountyId (repo, issueId) = 0
      ∧ transfer s.erc20 sender s.self amount = some tok
      ∧ newId = s.nextBountyId
      ∧ s' = { s with
          nextBountyId := s.nextBountyId + 1
          bounties := s.bounties ++
            [{ id := s.nextBountyId, creator := sender, initialAmount := amount,
               currentAmount := amount, maxAmount := maxA, repository := repo,
               issueId := issueId, issueUrl := url, status := .Active, solver := 0,
               solverGithubLogin := "", pullRequestUrl := "", createdAt := now,
               claimedAt := 0, expiresAt := expiresAt, escalationCount := 0 }]
          issueToBountyId := ((repo, issueId), s.nextBountyId) :: s.issueToBountyId
          erc20 := tok } := by
  unfold createBounty at h
  split at h
  · cases h
  rename_i hp
  split at h
  · cases h
  rename_i hr1
  split at h
  · cases h
  rename_i hr2
  split at h
  · cases h
  rename_i hexp
  split at h
  · cases h
  rename_i hkey
  split at h
  · cases h
  rename_i hov
  split at h
  · cases h
  rename_i tok ht
  simp only [Except.ok.injEq, Prod.mk.injEq] at h
  obtain ⟨rfl, rfl⟩ := h
  push_neg at hr1 hr2 hexp
  refine ⟨tok, by simpa using hp, hr1.1, hr1.2, hr2.1, hr2.2, ?_, ?_, ht, rfl, rfl⟩
  · by_cases hz : expiresAt = 0
    · exact Or.inl hz
    · exact Or.inr (by omega)
  · exact not_not.mp hkey

theorem cancelBounty_paused_irrelevant (s : EscrowState) (p q : Bool)
    (sender bountyId : Nat) :
    cancelBounty (setPaused s p) sender bountyId
      = Except.map (fun t => setPaused t p)
          (cancelBounty (setPaused s q) sender bountyId) := by
  unfold cancelBounty setPaused
  dsimp only
  cases hf : findBounty s.bounties bountyId with
  | none => rfl
  | some b =>
    dsimp only
    split_ifs with h1 h2
    · rfl
    · rfl
    · cases ht : transfer s.erc20 s.self b.creator b.currentAmount with
      | none => rfl
      | some tok => rfl

theorem claimExpiredBounty_paused_irrelevant (s : EscrowState) (p q : Bool)
    (now bountyId : Nat) :
    claimExpiredBounty (setPaused s p) now bountyId
      = Except.map (fun t => setPaused t p)
          (claimExpiredBounty (setPaused s q) now bountyId) := by
  unfold claimExpiredBounty setPaused
  dsimp only
  cases hf : findBounty s.bounties bountyId with
  | none => rfl
  | some b =>
    dsimp only
    split_ifs with h1 h2
    · rfl
    · rfl
    · cases ht : transfer s.erc20 s.self b.creator b.currentAmount with
      | none => rfl
      | some tok => rfl

theorem lookupIssue_execOp_mono (s : EscrowState) (op : Op) (k : String × Nat)
    (hk : lookupIssue s.issueToBountyId k ≠ 0) :
    lookupIssue (execOp s op).issueToBountyId k ≠ 0 := by
  cases op with
  | create sender now repo issueId url amount maxA expiresAt =>
    simp only [execOp]
    cases hc : createBounty s sender now repo issueId url amount maxA expiresAt with
    | error e => exact hk
    | ok p =>
      obtain ⟨s', newId⟩ := p
      obtain ⟨tok, hp, _, _, _, _, _, hkey, _, _, rfl⟩ :=
        createBounty_ok _ _ _ _ _ _ _ _ _ _ _ hc
      dsimp only
      rw [lookupIssue_cons]
      split_ifs with he
      · exact absurd (he ▸ hkey) hk
      · exact hk
  | escalate sender bountyId add =>
    simp only [execOp]
    cases hc : escalateBounty s sender bountyId add with
    | error e => exact hk
    | ok s' =>
      obtain ⟨b, tokNew, _, _, _, _, _, _, _, _, rfl⟩ := escalateBounty_ok _ _ _ _ _ hc
      exact hk
  | release sender now bountyId solver lg pr =>
    simp only [execOp]
    cases hc : releaseBounty s sender now bountyId solver lg pr with
    | error e => exact hk
    | ok s' =>
      obtain ⟨b, tok1, tokNew, _, _, _, _, _, _, _, _, _, rfl⟩ :=
        releaseBounty_ok _ _ _ _ _ _ _ _ hc
      exact hk
  | cancel sender bountyId =>
    simp only [execOp]
    cases hc : cancelBounty s sender bountyId with
    | error e => exact hk
    | ok s' =>
      obtain ⟨b, tok, _, _, _, _, rfl⟩ := cancelBounty_ok _ _ _ _ hc
      exact hk
  | claimExpired now bountyId =>
    simp only [execOp]
    cases hc : claimExpiredBounty s now bountyId with
    | error e => exact hk
    | ok s' =>
      obtain ⟨b, tok, _, _, _, _, _, rfl⟩ := claimExpiredBounty_ok _ _ _ _ hc
      exact hk
  | config sender minA maxA feeBps feeRecip =>
    simp only [execOp]
    cases hc : updateConfig s sender minA maxA feeBps feeRecip with
    | error e => exact hk
    | ok s' =>
      unfold updateConfig at hc
      split_ifs at hc
      cases hc
      exact hk
  | pause sender =>
    simp only [execOp]
    cases hc : pause s sender with
    | error e => exact hk
    | ok s' =>
      unfold pause at hc
      split_ifs at hc
      cases hc
      exact hk
  | unpause sender =>
    simp only [execOp]
    cases hc : unpause s sender with
    | error e => exact hk
    | ok s' =>
      unfold unpause at hc
      split_ifs at hc
      cases hc
      exact hk
  | withdraw sender token amount =>
    simp only [execOp]
    cases hc : emergencyWithdraw s sender token amount with
    | error e => exact hk
    | ok s' =>
      unfold emergencyWithdraw at hc
      split_ifs at hc with h1 h2
      · cases ht : transfer s.erc20 s.self sender amount with
        | none => rw [ht] at hc; cases hc
        | some tok =>
          rw [ht] at hc
          cases hc
          exact hk
      · cases hc
        exact hk

theorem cap_invariant_execOp (s : EscrowState)
    (hcap : ∀ c ∈ s.bounties, c.currentAmount ≤ c.maxAmount) (op : Op) :
    ∀ c ∈ (execOp s op).bounties, c.currentAmount ≤ c.maxAmount := by
  cases op with
  | create sender now repo issueId url amount maxA expiresAt =>
    simp only [execOp]
    cases hc : createBounty s sender now repo issueId url amount maxA expiresAt with
    | error e => exact hcap
    | ok p =>
      obtain ⟨s', newId⟩ := p
      obtain ⟨tok, hp, hm1, hm2, hm3, hm4, _, _, _, _, rfl⟩ :=
        createBounty_ok _ _ _ _ _ _ _ _ _ _ _ hc
      intro c hcm
      rcases List.mem_append.mp hcm with hcm | hcm
      · exact hcap c hcm
      · rw [List.mem_singleton] at hcm
        subst hcm
        exact hm3
  | escalate sender bountyId add =>
    simp only [execOp]
    cases hc : escalateBounty s sender bountyId add with
    | error e => exact hcap
    | ok s' =>
      obtain ⟨b, tokNew, hf, _, _, _, _, hle, _, _, rfl⟩ := escalateBounty_ok _ _ _ _ _ hc
      intro c hcm
      rcases mem_setBounty _ _ _ _ hcm with hcm | hcm
      · exact hcap c hcm
      · subst hcm
        exact hle
  | release sender now bountyId solver lg pr =>
    simp only [execOp]
    cases hc : releaseBounty s sender now bountyId solver lg pr with
    | error e => exact hcap
    | ok s' =>
      obtain ⟨b, tok1, tokNew, hf, _, _, _, _, _, _, _, _, rfl⟩ :=
        releaseBounty_ok _ _ _ _ _ _ _ _ hc
      intro c hcm
      rcases mem_setBounty _ _ _ _ hcm with hcm | hcm
      · exact hcap c hcm
      · subst hcm
        exact hcap b (findBounty_mem _ _ _ hf)
  | cancel sender bountyId =>
    simp only [execOp]
    cases hc : cancelBounty s sender bountyId with
    | error e => exact hcap
    | ok s' =>
      obtain ⟨b, tok, hf, _, _, _, rfl⟩ := cancelBounty_ok _ _ _ _ hc
      intro c hcm
      rcases mem_setBounty _ _ _ _ hcm with hcm | hcm
      · exact hcap c hcm
      · subst hcm
        exact hcap b (findBounty_mem _ _ _ hf)
  | claimExpired now bountyId =>
    simp only [execOp]
    cases hc : claimExpiredBounty s now bountyId with
    | error e => exact hcap
    | ok s' =>
      obtain ⟨b, tok, hf, _, _, _, _, rfl⟩ := claimExpiredBounty_ok _ _ _ _ hc
      intro c hcm
      rcases mem_setBounty _ _ _ _ hcm with hcm | hcm
      · exact hcap c hcm
      · subst hcm
        exact hcap b (findBounty_mem _ _ _ hf)
  | config sender minA maxA feeBps feeRecip =>
    simp only [execOp]
    cases hc : updateConfig s sender minA maxA feeBps feeRecip with
    | error e => exact hcap
    | ok s' =>
      unfold updateConfig at hc
      split_ifs at hc
      cases hc
      exact hcap
  | pause sender =>
    simp only [execOp]
    cases hc : pause s sender with
    | error e => exact hcap
    | ok s' =>
      unfold pause at hc
      split_ifs at hc
      cases hc
      exact hcap
  | unpause sender =>
    simp only [execOp]
    cases hc : unpause s sender with
    | error e => exact hcap
    | ok s' =>
      unfold unpause at hc
      split_ifs at hc
      cases hc
      exact hcap
  | withdraw sender token amount =>
    simp only [execOp]
    cases hc : emergencyWithdraw s sender token amount with
    | error e => exact hcap
    | ok s' =>
      unfold emergencyWithdraw at hc
      split_ifs at hc with h1 h2
      · cases ht : transfer s.erc20 s.self sender amount with
        | none => rw [ht] at hc; cases hc
        | some tok =>
          rw [ht] at hc
          cases hc
          exact hcap
      · cases hc
        exact hcap

theorem good_execTrace (s : EscrowState) (ops : List Op) (hg : Good s)
    (hb : ∀ op ∈ ops, benign s.self s.mneeToken op) : Good (execTrace s ops) := by
  induction ops generalizing s with
  | nil => exact hg
  | cons op rest ih =>
    have hstep := good_execOp s op (hb op (List.mem_cons_self _ _)) hg
    have hconst := execOp_self_mnee s op
    refine ih (execOp s op) hstep ?_
    intro o ho
    rw [hconst.1, hconst.2]
    exact hb o (List.mem_cons_of_mem _ ho)

/-- C1 counterexample: the claim as frozen is false. From a fresh
deployment, after a committed `createBounty` of 100 MNEE and a committed
`emergencyWithdraw` of 50 MNEE of the MNEE token itself by the admin, the
escrow holds 50 MNEE while the sum of `currentAmount` over Active
bounties is 100 MNEE, and the bounty is still Active. -/
theorem custody_breaks_on_emergencyWithdraw :
    createBounty s0W 10 100 "owner/repo" 1 "u" (100 * E18) (300 * E18) 0 = .ok (s1W, 1)
    ∧ emergencyWithdraw s1W 3 2 (50 * E18)
        = .ok (execOp s1W (.withdraw 3 2 (50 * E18)))
    ∧ (findBounty (execOp s1W (.withdraw 3 2 (50 * E18))).bounties 1).map Bounty.status
        = some .Active
    ∧ balanceOf (execOp s1W (.withdraw 3 2 (50 * E18))).erc20 1 = 50 * E18
    ∧ activeSum (execOp s1W (.withdraw 3 2 (50 * E18))).bounties = 100 * E18
    ∧ (50 * E18 : Nat) ≠ 100 * E18 :=
  ⟨rfl, rfl, rfl, rfl, rfl, by decide⟩

/-- C1 (amended): the custody invariant — the escrow's MNEE balance equals
the sum of `currentAmount` over Active bounties — holds after every
committed operation along any trace from a `Good` state (e.g. a fresh
deployment with a nonzero, non-escrow fee recipient), provided no
`emergencyWithdraw` of the MNEE token itself is performed, `updateConfig`
never sets the fee recipient to the zero address or the escrow, and
callers and payout recipients are external accounts. As frozen the claim
is false: `emergencyWithdraw(mneeToken, amount)` reduces custody without
moving any bounty out of Active. -/
theorem custody_invariant_benign_traces (s0 : EscrowState) (ops : List Op)
    (hg : Good s0) (hb : ∀ op ∈ ops, benign s0.self s0.mneeToken op) :
    custodyOk (execTrace s0 ops) :=
  (good_execTrace s0 ops hg hb).custody

/-- Witness for C1's amended theorem: a concrete create–escalate–release
trace from the deployed scenario state. -/
theorem custody_invariant_benign_traces_witness :
    custodyOk (execTrace s0W
      [.create 10 100 "owner/repo" 1 "u" (100 * E18) (300 * E18) 0,
       .escalate 10 1 (50 * E18), .release 4 500 1 20 "slv" "pr"]) :=
  custody_invariant_benign_traces s0W _
    { custody := rfl, fee_nz := by decide, fee_ns := by decide,
      creators := by simp [s0W], ids_lt := by simp [s0W], nodup := by simp [s0W] }
    (by
      intro op hop
      rcases List.mem_cons.mp hop with rfl | hop
      · show (10 : Nat) ≠ 1
        decide
      rcases List.mem_cons.mp hop with rfl | hop
      · show (10 : Nat) ≠ 1
        decide
      rcases List.mem_cons.mp hop with rfl | hop
      · show (20 : Nat) ≠ 1
        decide
      exact absurd hop (List.not_mem_nil op))

/-- C2 (confirmed): after a successful `releaseBounty`, a second
`releaseBounty` on the same bounty id — by any oracle caller, with any
nonzero solver — fails with `BountyNotActive` and leaves the committed
state untouched: idempotent rejection, not double payment. -/
theorem release_no_double (s s' : EscrowState) (sender now bountyId : Nat)
    (solver : Addr) (lg pr : String) (sender2 now2 : Nat) (solver2 : Addr)
    (lg2 pr2 : String)
    (h : releaseBounty s sender now bountyId solver lg pr = .ok s')
    (h2a : sender2 ∈ s.oracles) (h2b : solver2 ≠ 0) :
    releaseBounty s' sender2 now2 bountyId solver2 lg2 pr2 = .error .BountyNotActive
    ∧ execOp s' (.release sender2 now2 bountyId solver2 lg2 pr2) = s' := by
  obtain ⟨b, tok1, tokNew, hf, hor, hp, hsz, hst, hov, hsub, ht1, htk, rfl⟩ :=
    releaseBounty_ok _ _ _ _ _ _ _ _ h
  have hf' := findBounty_setBounty s.bounties bountyId b
    { b with status := .Claimed, solver := solver, solverGithubLogin := lg,
             pullRequestUrl := pr, claimedAt := now } hf
    (findBounty_id s.bounties bountyId b hf)
  have herr : releaseBounty
      { s with
        bounties := setBounty s.bounties bountyId
          { b with status := .Claimed, solver := solver, solverGithubLogin := lg,
                   pullRequestUrl := pr, claimedAt := now }
        erc20 := tokNew } sender2 now2 bountyId solver2 lg2 pr2
      = .error .BountyNotActive := by
    unfold releaseBounty
    dsimp only
    rw [if_neg (not_not_intro h2a)]
    rw [if_neg (show ¬(s.paused = true) by simp [hp])]
    rw [if_neg h2b]
    rw [hf']
    dsimp only
    rw [if_pos (by decide)]
  refine ⟨herr, ?_⟩
  simp only [execOp, herr]

/-- Witness for C2: in the deployed scenario the oracle releases bounty 1
to solver 20; an immediate second release attempt by the oracle fails with
`BountyNotActive` and changes nothing. -/
theorem release_no_double_witness :
    releaseBounty (execOp s1W (.release 4 500 1 20 "slv" "pr")) 4 600 1 20 "slv" "pr"
        = .error .BountyNotActive
    ∧ execOp (execOp s1W (.release 4 500 1 20 "slv" "pr"))
          (.release 4 600 1 20 "slv" "pr")
        = execOp s1W (.release 4 500 1 20 "slv" "pr") :=
  release_no_double s1W (execOp s1W (.release 4 500 1 20 "slv" "pr"))
    4 500 1 20 "slv" "pr" 4 600 20 "slv" "pr" rfl (by decide) (by decide)

/-- C3 counterexample: deployed with `feeRecipient = address(0)` — which
the constructor does not reject — a successful release of a 100 MNEE
bounty at 250 bps computes `floor(A*r/10000) = 2.5 MNEE` but pays none of
it to the fee recipient: the zero address receives nothing and the 2.5
MNEE stays in the escrow, contradicting the claim's "the fee paid to the
fee recipient equals floor(A*r/10000)". -/
theorem fee_withheld_when_feeRecipient_zero :
    s1Z.feeRecipient = 0
    ∧ releaseBounty s1Z 4 777 1 20 "slv" "pr"
        = .ok (execOp s1Z (.release 4 777 1 20 "slv" "pr"))
    ∧ platformFeeOf (100 * E18) 250 = 25 * 10 ^ 17
    ∧ balanceOf (execOp s1Z (.release 4 777 1 20 "slv" "pr")).erc20 0 = 0
    ∧ balanceOf (execOp s1Z (.release 4 777 1 20 "slv" "pr")).erc20 1 = 25 * 10 ^ 17
    ∧ (25 * 10 ^ 17 : Nat) ≠ 0 :=
  ⟨rfl, rfl, rfl, rfl, rfl, by decide⟩

/-- C3 (amended): for every successful release of a bounty with
`currentAmount = A` at fee rate `r` bps, the computed fee is
`floor(A*r/10000)`, the solver receives `A - fee`, and `payout + fee = A`
exactly; the fee is actually transferred to the fee recipient provided the
configured fee recipient is a nonzero address (distinct from the solver
and the escrow, so the amounts are attributable). With a zero fee
recipient the code silently keeps the fee in escrow (see the
counterexample). -/
theorem release_fee_math (s s' : EscrowState) (sender now bountyId : Nat)
    (solver : Addr) (lg pr : String) (b : Bounty)
    (hf : findBounty s.bounties bountyId = some b)
    (h : releaseBounty s sender now bountyId solver lg pr = .ok s')
    (hfr0 : s.feeRecipient ≠ 0) (hfs : solver ≠ s.feeRecipient)
    (hss : solver ≠ s.self) (hrs : s.feeRecipient ≠ s.self) :
    balanceOf s'.erc20 s.feeRecipient
        = balanceOf s.erc20 s.feeRecipient
          + platformFeeOf b.currentAmount s.platformFeeBps
    ∧ balanceOf s'.erc20 solver
        = balanceOf s.erc20 solver
          + (b.currentAmount - platformFeeOf b.currentAmount s.platformFeeBps)
    ∧ (b.currentAmount - platformFeeOf b.currentAmount s.platformFeeBps)
        + platformFeeOf b.currentAmount s.platformFeeBps = b.currentAmount := by
  obtain ⟨b0, tok1, tokNew, hf0, hor, hp, hsz, hst, hov, hsub, ht1, htk, rfl⟩ :=
    releaseBounty_ok _ _ _ _ _ _ _ _ h
  rw [hf0] at hf
  injection hf with hbb
  subst hbb
  dsimp only
  refine ⟨?_, ?_, by omega⟩
  · rcases htk with ⟨hfpos, hfr, ht2⟩ | ⟨hzero, rfl⟩
    · have e1 := transfer_balanceOf_other _ _ _ _ _ s.feeRecipient ht1 (Ne.symm hrs) hfs
      have e2 := transfer_balanceOf_dst _ _ _ _ _ ht2 (Ne.symm hrs)
      omega
    · rcases hzero with hz | hz
      · have e1 := transfer_balanceOf_other _ _ _ _ _ s.feeRecipient ht1 (Ne.symm hrs) hfs
        omega
      · exact absurd hz hfr0
  · rcases htk with ⟨hfpos, hfr, ht2⟩ | ⟨hzero, rfl⟩
    · have e1 := transfer_balanceOf_dst _ _ _ _ _ ht1 (Ne.symm hss)
      have e2 := transfer_balanceOf_other _ _ _ _ _ solver ht2 (Ne.symm hss) (Ne.symm hfs)
      omega
    · have e1 := transfer_balanceOf_dst _ _ _ _ _ ht1 (Ne.symm hss)
      omega

/-- Witness for C3's amended theorem: the oracle releases the 100 MNEE
scenario bounty; the fee recipient (address 5) gains exactly 2.5 MNEE and
the solver (address 20) exactly 97.5 MNEE. -/
theorem release_fee_math_witness :
    balanceOf (execOp s1W (.release 4 500 1 20 "slv" "pr")).erc20 s1W.feeRecipient
        = balanceOf s1W.erc20 s1W.feeRecipient
          + platformFeeOf bW.currentAmount s1W.platformFeeBps
    ∧ balanceOf (execOp s1W (.release 4 500 1 20 "slv" "pr")).erc20 20
        = balanceOf s1W.erc20 20
          + (bW.currentAmount - platformFeeOf bW.currentAmount s1W.platformFeeBps)
    ∧ (bW.currentAmount - platformFeeOf bW.currentAmount s1W.platformFeeBps)
        + platformFeeOf bW.currentAmount s1W.platformFeeBps = bW.currentAmount :=
  release_fee_math s1W (execOp s1W (.release 4 500 1 20 "slv" "pr"))
    4 500 1 20 "slv" "pr" bW rfl rfl (by decide) (by decide) (by decide) (by decide)

/-- C4 counterexample: after creating a bounty on (owner/repo, 1) and
cancelling it — a terminal status — a fresh `createBounty` for the same
work item with valid parameters still fails with `BountyAlreadyExists`:
`issueToBountyId` is never cleared, so the frozen claim's "once the
existing bounty has reached a terminal status, a new createBounty
succeeds" is false. -/
theorem dedupe_key_never_cleared :
    cancelBounty s1W 10 1 = .ok (execOp s1W (.cancel 10 1))
    ∧ (findBounty (execOp s1W (.cancel 10 1)).bounties 1).map Bounty.status
        = some .Cancelled
    ∧ createBounty (execOp s1W (.cancel 10 1)) 10 200 "owner/repo" 1 "u"
        (100 * E18) (300 * E18) 0 = .error .BountyAlreadyExists :=
  ⟨rfl, rfl, rfl⟩

/-- C4 (amended): with the other preconditions satisfied, `createBounty`
fails with `BountyAlreadyExists` exactly when `issueToBountyId` holds a
nonzero entry for (repository, issueId) — i.e. when ANY bounty, of any
status, was ever created for that work item — and no operation ever
clears such an entry. A work item can therefore host at most one bounty
over the contract's lifetime; terminal statuses do not free the key. -/
theorem create_dedupe_iff_key_present (s : EscrowState) (sender now : Nat)
    (repo : String) (issueId : Nat) (url : String) (amount maxA expiresAt : Nat)
    (hp : s.paused = false)
    (h1 : s.minBountyAmount ≤ amount) (h2 : amount ≤ s.maxBountyAmount)
    (h3 : amount ≤ maxA) (h4 : maxA ≤ s.maxBountyAmount)
    (h5 : expiresAt = 0 ∨ now < expiresAt) :
    (createBounty s sender now repo issueId url amount maxA expiresAt
        = .error .BountyAlreadyExists
      ↔ lookupIssue s.issueToBountyId (repo, issueId) ≠ 0)
    ∧ ∀ op : Op, lookupIssue s.issueToBountyId (repo, issueId) ≠ 0 →
        lookupIssue (execOp s op).issueToBountyId (repo, issueId) ≠ 0 := by
  constructor
  · unfold createBounty
    rw [if_neg (show ¬(s.paused = true) by simp [hp])]
    rw [if_neg (show ¬(amount < s.minBountyAmount ∨ amount > s.maxBountyAmount) by
      omega)]
    rw [if_neg (show ¬(maxA < amount ∨ maxA > s.maxBountyAmount) by omega)]
    rw [if_neg (show ¬(expiresAt ≠ 0 ∧ expiresAt ≤ now) by omega)]
    constructor
    · intro heq
      by_contra hk
      rw [if_neg (fun hne => hne hk)] at heq
      split at heq
      · cases heq
      · split at heq
        · cases heq
        · cases heq
    · intro hk
      rw [if_pos hk]
  · intro op hk
    exact lookupIssue_execOp_mono s op (repo, issueId) hk

/-- Witness for C4's amended theorem at the scenario state `s1W`, whose
dedupe map binds (owner/repo, 1) to bounty 1. -/
theorem create_dedupe_iff_key_present_witness :
    (createBounty s1W 10 300 "owner/repo" 1 "u" (100 * E18) (300 * E18) 0
        = .error .BountyAlreadyExists
      ↔ lookupIssue s1W.issueToBountyId ("owner/repo", 1) ≠ 0)
    ∧ ∀ op : Op, lookupIssue s1W.issueToBountyId ("owner/repo", 1) ≠ 0 →
        lookupIssue (execOp s1W op).issueToBountyId ("owner/repo", 1) ≠ 0 :=
  create_dedupe_iff_key_present s1W 10 300 "owner/repo" 1 "u" (100 * E18)
    (300 * E18) 0 rfl (by decide) (by decide) (by decide) (by decide) (Or.inl rfl)

/-- C5 (confirmed): while paused, `createBounty` and `escalateBounty` are
rejected with the pause error, as is `releaseBounty` for an oracle caller
(a non-oracle fails the role check first, as the `onlyRole` modifier runs
before `whenNotPaused`); `cancelBounty` and `claimExpiredBounty` carry no
pause check at all and behave exactly as in the unpaused state (their
result only differs in carrying the pause flag), so a creator can always
recover funds during a pause. -/
theorem pause_asymmetry (s : EscrowState) (hp : s.paused = true)
    (sender now : Nat) (repo : String) (issueId : Nat) (url : String)
    (amount maxA expiresAt : Nat) (sender2 bountyId2 add2 : Nat)
    (sender3 now3 bountyId3 : Nat) (solver3 : Addr) (lg3 pr3 : String)
    (hor : sender3 ∈ s.oracles)
    (sender4 bountyId4 now5 bountyId5 : Nat) :
    createBounty s sender now repo issueId url amount maxA expiresAt
        = .error .EnforcedPause
    ∧ escalateBounty s sender2 bountyId2 add2 = .error .EnforcedPause
    ∧ releaseBounty s sender3 now3 bountyId3 solver3 lg3 pr3
        = .error .EnforcedPause
    ∧ cancelBounty s sender4 bountyId4
        = Except.map (fun t => setPaused t true)
            (cancelBounty (setPaused s false) sender4 bountyId4)
    ∧ claimExpiredBounty s now5 bountyId5
        = Except.map (fun t => setPaused t true)
            (claimExpiredBounty (setPaused s false) now5 bountyId5) := by
  have hs : s = setPaused s true := by
    show s = { s with paused := true }
    rw [← hp]
  refine ⟨?_, ?_, ?_, ?_, ?_⟩
  · unfold createBounty
    rw [if_pos hp]
  · unfold escalateBounty
    rw [if_pos hp]
  · unfold releaseBounty
    rw [if_neg (not_not_intro hor), if_pos hp]
  · conv_lhs => rw [hs]
    exact cancelBounty_paused_irrelevant s true false sender4 bountyId4
  · conv_lhs => rw [hs]
    exact claimExpiredBounty_paused_irrelevant s true false now5 bountyId5

/-- Witness for C5: the scenario state paused by the admin. -/
theorem pause_asymmetry_witness :
    createBounty (execOp s1W (.pause 3)) 10 900 "o/r2" 2 "u2" (100 * E18)
        (300 * E18) 0 = .error .EnforcedPause
    ∧ escalateBounty (execOp s1W (.pause 3)) 10 1 E18 = .error .EnforcedPause
    ∧ releaseBounty (execOp s1W (.pause 3)) 4 901 1 20 "slv" "pr"
        = .error .EnforcedPause
    ∧ cancelBounty (execOp s1W (.pause 3)) 10 1
        = Except.map (fun t => setPaused t true)
            (cancelBounty (setPaused (execOp s1W (.pause 3)) false) 10 1)
    ∧ claimExpiredBounty (execOp s1W (.pause 3)) 902 1
        = Except.map (fun t => setPaused t true)
            (claimExpiredBounty (setPaused (execOp s1W (.pause 3)) false) 902 1) :=
  pause_asymmetry (execOp s1W (.pause 3)) rfl 10 900 "o/r2" 2 "u2" (100 * E18)
    (300 * E18) 0 10 1 E18 4 901 1 20 "slv" "pr" (by decide) 10 1 902 1

/-- C6 counterexample: the contract defines no `NotYetExpired` error. A
premature sweep of an Active, unexpired bounty reverts with the very same
`BountyNotActive` error that a sweep of an already-terminal (Cancelled)
bounty produces — the dedicated `NotYetExpired` failure of the frozen
claim does not exist in the code (line 614 reuses `BountyNotActive`). -/
theorem sweepExpired_early_error_not_distinct :
    (findBounty s1E.bounties 1).map Bounty.status = some .Active
    ∧ (findBounty s1E.bounties 1).map Bounty.expiresAt = some 5000
    ∧ claimExpiredBounty s1E 200 1 = .error .BountyNotActive
    ∧ (findBounty (execOp s1W (.cancel 10 1)).bounties 1).map Bounty.status
        = some .Cancelled
    ∧ claimExpiredBounty (execOp s1W (.cancel 10 1)) 200 1
        = .error .BountyNotActive :=
  ⟨rfl, rfl, rfl, rfl, rfl⟩

/-- C6 (amended): calling `claimExpiredBounty` on an Active bounty before
its `expiresAt` (or with `expiresAt = 0`) fails — with `BountyNotActive`,
not a dedicated `NotYetExpired` error — and leaves the committed state
unchanged; calling it at or after `expiresAt` refunds the full
`currentAmount` to the creator and sets the status to Expired. -/
theorem claimExpired_behavior (s : EscrowState) (now bountyId : Nat) (b : Bounty)
    (hf : findBounty s.bounties bountyId = some b) (hA : b.status = .Active) :
    ((b.expiresAt = 0 ∨ now < b.expiresAt) →
        claimExpiredBounty s now bountyId = .error .BountyNotActive
        ∧ execOp s (.claimExpired now bountyId) = s)
    ∧ (b.expiresAt ≠ 0 → b.expiresAt ≤ now → b.creator ≠ 0 → b.creator ≠ s.self →
        b.currentAmount ≤ balanceOf s.erc20 s.self →
        ∃ s', claimExpiredBounty s now bountyId = .ok s'
          ∧ findBounty s'.bounties bountyId = some { b with status := .Expired }
          ∧ balanceOf s'.erc20 b.creator
              = balanceOf s.erc20 b.creator + b.currentAmount) := by
  constructor
  · intro h1
    have he : claimExpiredBounty s now bountyId = .error .BountyNotActive := by
      unfold claimExpiredBounty
      rw [hf]
      dsimp only
      rw [if_neg (not_not_intro hA), if_pos h1]
    exact ⟨he, by simp only [execOp, he]⟩
  · intro h1 h2 h3 h4 h5
    obtain ⟨tok, ht⟩ :
        ∃ tok, transfer s.erc20 s.self b.creator b.currentAmount = some tok := by
      unfold transfer
      rw [if_neg h3,
        if_neg (show ¬(balanceOf s.erc20 s.self < b.currentAmount) by omega)]
      exact ⟨_, rfl⟩
    refine ⟨{ s with
        bounties := setBounty s.bounties bountyId { b with status := .Expired }
        erc20 := tok }, ?_, ?_, ?_⟩
    · unfold claimExpiredBounty
      rw [hf]
      dsimp only
      rw [if_neg (not_not_intro hA)]
      rw [if_neg (show ¬(b.expiresAt = 0 ∨ now < b.expiresAt) by omega)]
      rw [ht]
    · exact findBounty_setBounty s.bounties bountyId b { b with status := .Expired }
        hf (findBounty_id s.bounties bountyId b hf)
    · exact transfer_balanceOf_dst _ _ _ _ _ ht (Ne.symm h4)

/-- Witness for C6's amended theorem: the expiring scenario bounty
(expiry 5000) swept at time 200 fails with `BountyNotActive`; swept at
time 6000 it refunds 100 MNEE to the creator and becomes Expired. -/
theorem claimExpired_behavior_witness :
    (claimExpiredBounty s1E 200 1 = .error .BountyNotActive
      ∧ execOp s1E (.claimExpired 200 1) = s1E)
    ∧ ∃ s', claimExpiredBounty s1E 6000 1 = .ok s'
        ∧ findBounty s'.bounties 1 = some { bE with status := .Expired }
        ∧ balanceOf s'.erc20 bE.creator
            = balanceOf s1E.erc20 bE.creator + bE.currentAmount :=
  ⟨(claimExpired_behavior s1E 200 1 bE rfl rfl).1 (Or.inr (by decide)),
   (claimExpired_behavior s1E 6000 1 bE rfl rfl).2 (by decide) (by decide)
     (by decide) (by decide) (by decide)⟩

set_option maxRecDepth 8192 in
/-- C7 counterexample: `escalationCount` is a `uint8`. After 255 committed
escalations the 256th escalation by the creator of an Active bounty — with
ample headroom below `maxAmount` — reverts with a checked-arithmetic panic
from `bounty.escalationCount++`, not with success as the frozen claim
requires, nor with `MaxAmountExceeded`. -/
theorem escalate_panics_at_255_escalations :
    findBounty s255W.bounties 1 = some b255W
    ∧ b255W.status = .Active
    ∧ b255W.creator = 10
    ∧ s255W.paused = false
    ∧ b255W.currentAmount + E18 ≤ b255W.maxAmount
    ∧ escalateBounty s255W 10 1 E18 = .error .ArithmeticPanic :=
  ⟨rfl, rfl, rfl, rfl, by decide, rfl⟩

/-- C7 (amended): for an escalation of an Active bounty by the creator or
an oracle while unpaused: (a) if the new total stays within `maxAmount`
AND fewer than 255 escalations have occurred (the `uint8` counter must not
overflow), the call succeeds, raising `currentAmount` by
`additionalAmount`, `escalationCount` by one, and custody by
`additionalAmount`; (b) if the new total would exceed `maxAmount` the call
reverts with `MaxAmountExceeded` and the committed state is unchanged;
(c) `currentAmount ≤ maxAmount` is preserved by every operation, so
`currentAmount` never exceeds `maxAmount`. -/
theorem escalate_cap_theorem (s : EscrowState) (sender bountyId additionalAmount : Nat)
    (b : Bounty) (hf : findBounty s.bounties bountyId = some b)
    (hA : b.status = .Active)
    (hauth : b.creator = sender ∨ sender ∈ s.oracles)
    (hp : s.paused = false) (hmax : b.maxAmount < UINT256) :
    (b.currentAmount + additionalAmount ≤ b.maxAmount →
      b.escalationCount + 1 < UINT8 → s.self ≠ 0 →
      additionalAmount ≤ balanceOf s.erc20 sender →
      ∃ s', escalateBounty s sender bountyId additionalAmount = .ok s'
        ∧ findBounty s'.bounties bountyId
            = some { b with currentAmount := b.currentAmount + additionalAmount,
                            escalationCount := b.escalationCount + 1 }
        ∧ (sender ≠ s.self →
            balanceOf s'.erc20 s.self = balanceOf s.erc20 s.self + additionalAmount))
    ∧ (b.maxAmount < b.currentAmount + additionalAmount →
        b.currentAmount + additionalAmount < UINT256 →
        escalateBounty s sender bountyId additionalAmount
            = .error .MaxAmountExceeded
        ∧ execOp s (.escalate sender bountyId additionalAmount) = s)
    ∧ ((∀ c ∈ s.bounties, c.currentAmount ≤ c.maxAmount) →
        ∀ op : Op, ∀ c ∈ (execOp s op).bounties, c.currentAmount ≤ c.maxAmount) := by
  have hne : ¬(b.creator ≠ sender ∧ sender ∉ s.oracles) := by tauto
  refine ⟨?_, ?_, ?_⟩
  · intro hcap hcnt hself hbal
    by_cases hadd : additionalAmount > 0
    · obtain ⟨tok, ht⟩ :
          ∃ tok, transfer s.erc20 sender s.self additionalAmount = some tok := by
        unfold transfer
        rw [if_neg hself, if_neg (show ¬(balanceOf s.erc20 sender < additionalAmount)
          by omega)]
        exact ⟨_, rfl⟩
      refine ⟨{ s with
          bounties := setBounty s.bounties bountyId
            { b with currentAmount := b.currentAmount + additionalAmount,
                     escalationCount := b.escalationCount + 1 }
          erc20 := tok }, ?_, ?_, ?_⟩
      · unfold escalateBounty
        rw [if_neg (show ¬(s.paused = true) by simp [hp]), hf]
        dsimp only
        rw [if_neg (not_not_intro hA), if_neg hne]
        rw [if_neg (show ¬(b.currentAmount + additionalAmount ≥ UINT256) by omega)]
        rw [if_neg (show ¬(b.currentAmount + additionalAmount > b.maxAmount) by omega)]
        rw [if_neg (show ¬(b.escalationCount + 1 ≥ UINT8) by omega)]
        rw [if_pos hadd, ht]
      · exact findBounty_setBounty s.bounties bountyId b
          { b with currentAmount := b.currentAmount + additionalAmount,
                   escalationCount := b.escalationCount + 1 }
          hf (findBounty_id s.bounties bountyId b hf)
      · intro hsne
        exact transfer_balanceOf_dst _ _ _ _ _ ht hsne
    · have hz : additionalAmount = 0 := by omega
      refine ⟨{ s with
          bounties := setBounty s.bounties bountyId
            { b with currentAmount := b.currentAmount + additionalAmount,
                     escalationCount := b.escalationCount + 1 } }, ?_, ?_, ?_⟩
      · unfold escalateBounty
        rw [if_neg (show ¬(s.paused = true) by simp [hp]), hf]
        dsimp only
        rw [if_neg (not_not_intro hA), if_neg hne]
        rw [if_neg (show ¬(b.currentAmount + additionalAmount ≥ UINT256) by omega)]
        rw [if_neg (show ¬(b.currentAmount + additionalAmount > b.maxAmount) by omega)]
        rw [if_neg (show ¬(b.escalationCount + 1 ≥ UINT8) by omega)]
        rw [if_neg (show ¬(additionalAmount > 0) by omega)]
      · exact findBounty_setBounty s.bounties bountyId b
          { b with currentAmount := b.currentAmount + additionalAmount,
                   escalationCount := b.escalationCount + 1 }
          hf (findBounty_id s.bounties bountyId b hf)
      · intro hsne
        dsimp only
        omega
  · intro hgt hlt
    have herr : escalateBounty s sender bountyId additionalAmount
        = .error .MaxAmountExceeded := by
      unfold escalateBounty
      rw [if_neg (show ¬(s.paused = true) by simp [hp]), hf]
      dsimp only
      rw [if_neg (not_not_intro hA), if_neg hne]
      rw [if_neg (show ¬(b.currentAmount + additionalAmount ≥ UINT256) by omega)]
      rw [if_pos (show b.currentAmount + additionalAmount > b.maxAmount by omega)]
    exact ⟨herr, by simp only [execOp, herr]⟩
  · intro hc op
    exact cap_invariant_execOp s hc op

/-- Witness for C7's amended theorem: the creator escalates the scenario
bounty by 50 MNEE within the 300 MNEE cap. -/
theorem escalate_cap_theorem_witness :
    ∃ s', escalateBounty s1W 10 1 (50 * E18) = .ok s'
      ∧ findBounty s'.bounties 1
          = some { bW with currentAmount := bW.currentAmount + 50 * E18,
                           escalationCount := bW.escalationCount + 1 }
      ∧ (10 ≠ s1W.self →
          balanceOf s'.erc20 s1W.self = balanceOf s1W.erc20 s1W.self + 50 * E18) :=
  (escalate_cap_theorem s1W 10 1 (50 * E18) bW rfl rfl (Or.inl rfl) rfl
    (by decide)).1 (by decide) (by decide) (by decide) (by decide)

set_option maxRecDepth 8192 in
/-- C10 counterexample: a zero-amount escalation by the creator of an
Active bounty does NOT succeed when `escalationCount` already sits at 255:
the `uint8` increment `bounty.escalationCount++` reverts with a
checked-arithmetic panic, falsifying the frozen claim's unconditional
"succeeds, increments escalationCount by one". -/
theorem zero_escalation_panics_at_255 :
    findBounty s255W.bounties 1 = some b255W
    ∧ b255W.status = .Active
    ∧ b255W.creator = 10
    ∧ b255W.escalationCount = 255
    ∧ s255W.paused = false
    ∧ escalateBounty s255W 10 1 0 = .error .ArithmeticPanic :=
  ⟨rfl, rfl, rfl, rfl, rfl, rfl⟩

/-- C10 (amended): a zero-amount escalation of an Active bounty by the
creator or an oracle, while unpaused, succeeds PROVIDED the `uint8`
`escalationCount` is below 255; it then increments `escalationCount` by
one and leaves `currentAmount` and the entire MNEE balance book untouched
(no token transfer is attempted). At `escalationCount = 255` the call
reverts with an arithmetic panic (see the counterexample). -/
theorem escalate_zero_theorem (s : EscrowState) (sender bountyId : Nat) (b : Bounty)
    (hf : findBounty s.bounties bountyId = some b) (hA : b.status = .Active)
    (hauth : b.creator = sender ∨ sender ∈ s.oracles) (hp : s.paused = false)
    (hcap : b.currentAmount ≤ b.maxAmount) (hmax : b.maxAmount < UINT256)
    (hcnt : b.escalationCount + 1 < UINT8) :
    ∃ s', escalateBounty s sender bountyId 0 = .ok s'
      ∧ findBounty s'.bounties bountyId
          = some { b with escalationCount := b.escalationCount + 1 }
      ∧ s'.erc20 = s.erc20 := by
  have hne : ¬(b.creator ≠ sender ∧ sender ∉ s.oracles) := by tauto
  refine ⟨{ s with
      bounties := setBounty s.bounties bountyId
        { b with currentAmount := b.currentAmount + 0,
                 escalationCount := b.escalationCount + 1 } }, ?_, ?_, rfl⟩
  · unfold escalateBounty
    rw [if_neg (show ¬(s.paused = true) by simp [hp]), hf]
    dsimp only
    rw [if_neg (not_not_intro hA), if_neg hne]
    rw [if_neg (show ¬(b.currentAmount + 0 ≥ UINT256) by omega)]
    rw [if_neg (show ¬(b.currentAmount + 0 > b.maxAmount) by omega)]
    rw [if_neg (show ¬(b.escalationCount + 1 ≥ UINT8) by omega)]
    rw [if_neg (show ¬((0 : Nat) > 0) by omega)]
  · exact findBounty_setBounty s.bounties bountyId b
      { b with currentAmount := b.currentAmount + 0,
               escalationCount := b.escalationCount + 1 }
      hf (findBounty_id s.bounties bountyId b hf)

/-- Witness for C10's amended theorem: a zero-amount escalation of the
scenario bounty (escalation count 0) succeeds and moves no tokens. -/
theorem escalate_zero_theorem_witness :
    ∃ s', escalateBounty s1W 10 1 0 = .ok s'
      ∧ findBounty s'.bounties 1
          = some { bW with escalationCount := bW.escalationCount + 1 }
      ∧ s'.erc20 = s1W.erc20 :=
  escalate_zero_theorem s1W 10 1 bW rfl rfl (Or.inl rfl) rfl (by decide)
    (by decide) (by decide)

end BountyEscrow

namespace PaymentGateway

/-- C8 (confirmed): with the Ethereum rail inactive (`useBlockchain =
false`), each of the four rail-exclusive gateway operations returns the
`null` sentinel for every input — the mode check runs before the
initialization check, so no exception can be thrown. -/
theorem rail_sentinel_when_blockchain_off (svc : PaymentService)
    (h : svc.useBlockchain = false) (repository : String) (issueId : Nat)
    (issueUrl : String) (amount maxAmount expiresAt : Nat)
    (onChainBountyId additionalAmount : Nat) (bountyId2 : Nat)
    (solverAddress solverGithubLogin pullRequestUrl : String) (bountyId3 : Nat) :
    createOnChainBounty svc repository issueId issueUrl amount maxAmount expiresAt
        = .sentinelNull
    ∧ escalateOnChainBounty svc onChainBountyId additionalAmount = .sentinelNull
    ∧ releaseOnChainBounty svc bountyId2 solverAddress solverGithubLogin
        pullRequestUrl = .sentinelNull
    ∧ getOnChainBounty svc bountyId3 = .sentinelNull := by
  unfold createOnChainBounty escalateOnChainBounty releaseOnChainBounty
    getOnChainBounty
  rw [h]
  simp

/-- Witness for C8: an uninitialized gateway in MNEE-SDK mode returns the
sentinel from all four operations. -/
theorem rail_sentinel_witness :
    createOnChainBounty ⟨false, false⟩ "owner/repo" 1 "u" 100 300 0 = .sentinelNull
    ∧ escalateOnChainBounty ⟨false, false⟩ 1 50 = .sentinelNull
    ∧ releaseOnChainBounty ⟨false, false⟩ 1 "0xabc" "slv" "pr" = .sentinelNull
    ∧ getOnChainBounty ⟨false, false⟩ 1 = .sentinelNull :=
  rail_sentinel_when_blockchain_off ⟨false, false⟩ rfl "owner/repo" 1 "u" 100 300 0
    1 50 1 "0xabc" "slv" "pr" 1

/-- C9 counterexample: for a release of amount 150 at 250 bps the escrow
ledger charges `floor(150·250/10000) = 3`, but the gateway's
`calculateFee(150)` returns the unfloored quotient 3.75: the JavaScript
division performs no rounding down, so under the claim's integer amount
semantics the two values differ. -/
theorem calculateFee_not_floored :
    BountyEscrow.platformFeeOf 150 250 = 3
    ∧ calculateFee 150 250 = 15 / 4
    ∧ calculateFee 150 250 ≠ ((BountyEscrow.platformFeeOf 150 250 : ℕ) : ℚ) :=
  ⟨rfl, by norm_num [calculateFee],
    by norm_num [calculateFee, BountyEscrow.platformFeeOf]⟩

/-- C9 (amended): the gateway's `calculateFee` returns the exact rational
quotient `A·r/10000` with no flooring; it coincides with the escrow
ledger's floored fee `platformFeeOf A r = floor(A·r/10000)` precisely when
10000 divides `A·r` (e.g. whole-token amounts at the on-chain 18-decimal
scale), and in every case it is at least the ledger's fee. -/
theorem calculateFee_exact_iff (A r : ℕ) :
    (calculateFee A r = ((BountyEscrow.platformFeeOf A r : ℕ) : ℚ)
      ↔ (10000 : ℕ) ∣ A * r)
    ∧ ((BountyEscrow.platformFeeOf A r : ℕ) : ℚ) ≤ calculateFee A r := by
  have hq : calculateFee A r = ((A * r : ℕ) : ℚ) / 10000 := by
    unfold calculateFee
    push_cast
    ring
  unfold BountyEscrow.platformFeeOf
  rw [hq]
  constructor
  · constructor
    · intro heq
      rw [div_eq_iff (by norm_num : (10000 : ℚ) ≠ 0)] at heq
      have h3 : (A * r : ℕ) = A * r / 10000 * 10000 := by exact_mod_cast heq
      exact ⟨A * r / 10000, by omega⟩
    · intro hdvd
      have h3 : A * r / 10000 * 10000 = A * r := Nat.div_mul_cancel hdvd
      rw [div_eq_iff (by norm_num : (10000 : ℚ) ≠ 0)]
      exact_mod_cast h3.symm
  · rw [le_div_iff₀ (by norm_num : (0 : ℚ) < 10000)]
    exact_mod_cast Nat.div_mul_le_self (A * r) 10000

/-- Witness for C9's amended theorem at A = 160, r = 250: 10000 divides
40000, so the gateway quote equals the ledger fee of 4 exactly. -/
theorem calculateFee_exact_iff_witness :
    calculateFee 160 250 = ((BountyEscrow.platformFeeOf 160 250 : ℕ) : ℚ) :=
  (calculateFee_exact_iff 160 250).1.mpr (by decide)

end PaymentGateway
